import Mathlib

/-!
Verification of the HHW_brick conversion core.

This file shallowly embeds the equipment-inference engine and graph builder of
`src/hhw_brick/conversion/csv_to_brick.py` and the standalone ground-truth
recomputation of `src/hhw_brick/validation/ground_truth_calculator.py`, and
proves properties of the embedded definitions.

Modelling conventions:
* A sensor-availability row (a pandas `Series`) is a `Row`: an ordered list of
  `(column name, cell)` pairs, where a cell is `Option Int` (`none` models a
  missing column or an NA/NaN cell; for the `== 1`, `> 0` and `pd.notna`
  tests these behave identically).
* Scalar metadata cells are modelled post-coercion: `_safe_int_convert` and the
  ground-truth calculator's inline `int(float(...))` parse both map an
  integer-valued-or-missing cell to the same `Option Int`, so `b_number` is an
  `Option Int`; string- and float-valued metadata cells are carried as
  `Option String` (the printed literal payload), since no claim depends on the
  parsing internals.
* RDF nodes are `Node`: a URIRef (written in `prefix:local` form), a blank node
  carrying its identifier string, or a literal.  rdflib's `BNode()` draws a
  fresh identifier per call; this is modelled by threading an allocation
  counter and a `supply : Nat → String` that yields the identifier of the k-th
  allocated blank node of a run.
* The graph is the list of triples in insertion order (rdflib stores a set, but
  every triple added by this code within one conversion is distinct, so the
  list and set views agree).
-/

namespace HHW

/-- An RDF node: URIRef (in `prefix:local` spelling), blank node, or literal. -/
inductive Node where
  | uri (s : String)
  | bnode (s : String)
  | lit (s : String)
deriving Repr, DecidableEq

/-- An RDF triple (subject, predicate, object). -/
abbrev Triple := Node × Node × Node

/-- URIRef in the Brick namespace. -/
def brickN (x : String) : Node := .uri ("brick:" ++ x)

/-- URIRef in the hhws namespace. -/
def hhwsN (x : String) : Node := .uri ("hhws:" ++ x)

/-- URIRef in the RealEstateCore namespace. -/
def recN (x : String) : Node := .uri ("rec:" ++ x)

/-- URIRef in the qudt unit namespace. -/
def unitN (x : String) : Node := .uri ("unit:" ++ x)

/-- URIRef in the OWL namespace. -/
def owlN (x : String) : Node := .uri ("owl:" ++ x)

/-- URIRef in the Brick ref namespace. -/
def refN (x : String) : Node := .uri ("ref:" ++ x)

/-- `rdf:type`. -/
def rdfType : Node := .uri "rdf:type"

/-- `rdfs:label`. -/
def rdfsLabel : Node := .uri "rdfs:label"

/-- `rdfs:subClassOf`. -/
def rdfsSubClassOf : Node := .uri "rdfs:subClassOf"

/-- `rdfs:comment`. -/
def rdfsComment : Node := .uri "rdfs:comment"

/-- One row of the sensor-availability table: ordered `(column, cell)` pairs. -/
abbrev Row := List (String × Option Int)

/-- Column lookup in a row; `none` for a missing column or an NA cell
    (mirrors `pandas.Series.get`). -/
def rowGet (r : Row) (s : String) : Option Int :=
  match r.find? (fun p => p.1 == s) with
  | some p => p.2
  | none => none

/-- The test `vars_data.get(sensor, 0) == 1` from `csv_to_brick.py` (a missing
    column defaults to 0 and an NA cell is NaN; neither equals 1). -/
def varsIsOne (r : Row) (s : String) : Bool :=
  rowGet r s == some 1

/-- The ground-truth calculator's cell test
    `col in row.index and pd.notna(row[col]) and float(row[col]) > 0`. -/
def gtPos : Option Int → Bool
  | some x => 0 < x
  | none => false

/-- Python `str.lower()` (ASCII case folding, which covers every string this
    code compares; defined over the character list so the kernel can evaluate
    it on literals). -/
def strLower (s : String) : String :=
  ⟨s.data.map Char.toLower⟩

/-- Python `str.strip()`: drop leading and trailing whitespace. -/
def strTrim (s : String) : String :=
  ⟨((s.data.dropWhile Char.isWhitespace).reverse.dropWhile Char.isWhitespace).reverse⟩

/-- Python `sub in s` substring test. -/
def strContains (s sub : String) : Bool :=
  decide (sub.toList <:+: s.toList)

/-- Python `s.replace(key, rep)` on character lists (all occurrences, left to
    right), for the non-empty key `k0 :: key`; helper for `replaceAll`.  The
    fuel argument (instantiated with the list length, which bounds the number
    of steps) keeps the recursion structural so the kernel can evaluate it. -/
def replaceAllAux (k0 : Char) (key rep : List Char) : Nat → List Char → List Char
  | _, [] => []
  | 0, cs => cs
  | fuel + 1, c :: cs =>
    if (k0 :: key).isPrefixOf (c :: cs) then
      rep ++ replaceAllAux k0 key rep fuel (cs.drop key.length)
    else
      c :: replaceAllAux k0 key rep fuel cs

/-- Python `s.replace(key, rep)` for a non-empty `key` (the only uses in this
    code are `'brick:' → ''` and `'.ttl' → '_validation_warnings.txt'`). -/
def replaceAll (s key rep : String) : String :=
  match key.data with
  | [] => s
  | k0 :: kr => ⟨replaceAllAux k0 kr rep.data s.data.length s.data⟩

/-- `system_type.lower() in ['boiler', 'condensing', 'non-condensing']`
    (line 253 of csv_to_brick.py). -/
def is_boiler_system (systemType : String) : Bool :=
  strLower systemType == "boiler" || strLower systemType == "condensing" ||
    strLower systemType == "non-condensing"

/-- `system_type.lower() in ['district hw', 'district steam']`
    (line 254 of csv_to_brick.py). -/
def is_district_system (systemType : String) : Bool :=
  strLower systemType == "district hw" || strLower systemType == "district steam"

/-- The loop at lines 245-250 of csv_to_brick.py: the largest `i` in 1..9 such
    that any of `sup{i}`, `ret{i}`, `fire{i}` is available. -/
def max_boiler_from_sensors (v : Row) : Nat :=
  (List.range' 1 9).foldl
    (fun acc i =>
      if varsIsOne v s!"sup{i}" || varsIsOne v s!"ret{i}" || varsIsOne v s!"fire{i}"
      then max acc i else acc) 0

/-- The check at lines 282-283 of csv_to_brick.py for unnumbered boiler-generic
    sensors. -/
def has_unnumbered_boiler_sensor (v : Row) : Bool :=
  ["sup", "ret", "fire", "supp", "retp"].any (fun s => varsIsOne v s)

/-- The loop at lines 303-308 of csv_to_brick.py: the largest `i` in 1..9 such
    that any of `pmp{i}_pwr`, `pmp{i}_spd`, `pmp{i}_vfd` is available. -/
def max_pump_from_sensors (v : Row) : Nat :=
  (List.range' 1 9).foldl
    (fun acc i =>
      if varsIsOne v s!"pmp{i}_pwr" || varsIsOne v s!"pmp{i}_spd" || varsIsOne v s!"pmp{i}_vfd"
      then max acc i else acc) 0

/-- Python `f"{b_number}"` on the (possibly `None`) declared boiler count. -/
def showBNumber : Option Int → String
  | some n => toString n
  | none => "None"

/-- Result of `_analyze_equipment_count`: the `equipment_count` dict plus the
    messages appended to `self.validation_warnings` during the call. -/
structure AnalyzeResult where
  boilers : List Nat
  pumps : List Nat
  warnings : List String
deriving Repr, DecidableEq

/-- `CSVToBrickConverter._analyze_equipment_count` (csv_to_brick.py lines
    222-330).  `bNumber` is the already-coerced `b_number` metadata cell.
    Only appends to `validation_warnings` are recorded (pure `logger` calls are
    not collected by the converter). -/
def analyze_equipment_count (v : Row) (bNumber : Option Int)
    (buildingTag systemType : String) : AnalyzeResult :=
  let maxB := max_boiler_from_sensors v
  let bw : List Nat × List String :=
    if is_boiler_system systemType then
      match bNumber with
      | some n =>
        if 0 < n then
          (List.range' 1 (max n.toNat maxB), [])
        else if n = 0 then
          if 0 < maxB then
            (List.range' 1 maxB,
             [s!"Building {buildingTag}: Boiler system type ({systemType}) but b_number=0, sensor data shows {maxB} boilers, using sensor-inferred value"])
          else
            ([],
             [s!"Building {buildingTag}: Boiler system type ({systemType}) but b_number=0, sensor data also shows no boilers, needs manual verification"])
        else
          (List.range' 1 (if maxB = 0 && has_unnumbered_boiler_sensor v then 1 else maxB), [])
      | none =>
        (List.range' 1 (if maxB = 0 && has_unnumbered_boiler_sensor v then 1 else maxB), [])
    else if is_district_system systemType then
      if 0 < maxB || (match bNumber with | some n => 0 < n | none => false) then
        ([],
         [s!"Building {buildingTag}: District system ({systemType}) but found boiler-related data - b_number={showBNumber bNumber}, sensors show {maxB} boilers, not modeling boilers, needs manual verification"])
      else ([], [])
    else ([], [])
  let maxP := max_pump_from_sensors v
  let hasGenericPump := varsIsOne v "pmp_spd"
  let pumps : List Nat :=
    if 0 < maxP then List.range' 1 maxP
    else if hasGenericPump then [1]
    else []
  { boilers := bw.1, pumps := pumps, warnings := bw.2 }

/-- The `fire1..fire4` scan of `GroundTruthCalculator._calculate_boiler_count`
    (ground_truth_calculator.py lines 143-152): largest `i` in 1..4 with
    `fire{i}` present and `> 0`. -/
def gt_fire_count (v : Row) : Nat :=
  (List.range' 1 4).foldl
    (fun acc i => if gtPos (rowGet v s!"fire{i}") then max acc i else acc) 0

/-- The `sup1..sup4` scan of `GroundTruthCalculator._calculate_boiler_count`
    (ground_truth_calculator.py lines 154-163). -/
def gt_sup_count (v : Row) : Nat :=
  (List.range' 1 4).foldl
    (fun acc i => if gtPos (rowGet v s!"sup{i}") then max acc i else acc) 0

/-- The `ret1..ret4` scan of `GroundTruthCalculator._calculate_boiler_count`
    (ground_truth_calculator.py lines 165-174). -/
def gt_ret_count (v : Row) : Nat :=
  (List.range' 1 4).foldl
    (fun acc i => if gtPos (rowGet v s!"ret{i}") then max acc i else acc) 0

/-- `GroundTruthCalculator._calculate_boiler_count` (ground_truth_calculator.py
    lines 123-190).  `bNumber` is the merged row's `b_number` cell; the inline
    parse maps a missing/NA cell to a count of 0. -/
def calculate_boiler_count (v : Row) (bNumber : Option Int) (system : String) : Int :=
  if strContains (strLower system) "district" then 0
  else
    let bc : Int := match bNumber with | some n => n | none => 0
    let fireCount := gt_fire_count v
    let supCount := gt_sup_count v
    let retCount := gt_ret_count v
    let boilerCount := max (max (max bc (fireCount : Int)) (supCount : Int)) (retCount : Int)
    let systemLower := strLower system
    let hasBoilerSystem := strContains systemLower "boiler" ||
      strContains systemLower "condensing" || strContains systemLower "non-condensing"
    if hasBoilerSystem && boilerCount = 0 then 1 else boilerCount

/-! ### Generic facts about the max-index scans

Both engines compute "largest index in a range whose flag is set" with the
fold `acc ↦ if p i then max acc i else acc`; `maxSat` abstracts that fold. -/

/-- The accumulator fold shared by the unit-number scans. -/
def maxSat (p : Nat → Bool) (l : List Nat) (a : Nat) : Nat :=
  l.foldl (fun acc i => if p i then max acc i else acc) a

theorem maxSat_nil (p : Nat → Bool) (a : Nat) : maxSat p [] a = a := rfl

theorem maxSat_cons (p : Nat → Bool) (i : Nat) (l : List Nat) (a : Nat) :
    maxSat p (i :: l) a = maxSat p l (if p i then max a i else a) := rfl

theorem maxSat_base (p : Nat → Bool) (l : List Nat) (a : Nat) :
    maxSat p l a = max a (maxSat p l 0) := by
  induction l generalizing a with
  | nil => simp [maxSat_nil]
  | cons i l ih =>
    rw [maxSat_cons, maxSat_cons, ih, ih (if p i then max 0 i else 0)]
    by_cases h : p i = true
    · simp only [h, if_pos]
      omega
    · simp only [Bool.not_eq_true] at h
      simp only [h, Bool.false_eq_true, if_neg, not_false_iff]
      omega

theorem maxSat_congr (p q : Nat → Bool) (l : List Nat) (a : Nat)
    (h : ∀ i ∈ l, p i = q i) : maxSat p l a = maxSat q l a := by
  induction l generalizing a with
  | nil => rfl
  | cons i l ih =>
    rw [maxSat_cons, maxSat_cons, h i (by simp)]
    exact ih _ (fun j hj => h j (List.mem_cons_of_mem _ hj))

theorem maxSat_or (p q : Nat → Bool) (l : List Nat) :
    maxSat (fun i => p i || q i) l 0 = max (maxSat p l 0) (maxSat q l 0) := by
  induction l with
  | nil => simp [maxSat_nil]
  | cons i l ih =>
    rw [maxSat_cons, maxSat_cons, maxSat_cons]
    cases hp : p i <;> cases hq : q i
    · simpa only [hp, hq, Bool.or_self, Bool.false_eq_true, if_neg, not_false_iff] using ih
    · simp only [hp, hq, Bool.false_or, Bool.false_eq_true, if_true, if_neg, not_false_iff,
        Nat.zero_max]
      rw [maxSat_base (fun j => p j || q j) l i, ih, maxSat_base q l i]
      omega
    · simp only [hp, hq, Bool.true_or, Bool.false_eq_true, if_true, if_neg, not_false_iff,
        Nat.zero_max]
      rw [maxSat_base (fun j => p j || q j) l i, ih, maxSat_base p l i]
      omega
    · simp only [hp, hq, Bool.or_self, if_true, Nat.zero_max]
      rw [maxSat_base (fun j => p j || q j) l i, ih, maxSat_base p l i, maxSat_base q l i]
      omega

theorem maxSat_append (p : Nat → Bool) (l₁ l₂ : List Nat) (a : Nat) :
    maxSat p (l₁ ++ l₂) a = maxSat p l₂ (maxSat p l₁ a) := by
  simp [maxSat, List.foldl_append]

theorem maxSat_mem (p : Nat → Bool) (l : List Nat) (a : Nat) :
    maxSat p l a = a ∨ maxSat p l a ∈ l := by
  induction l generalizing a with
  | nil => left; rfl
  | cons i l ih =>
    rw [maxSat_cons]
    rcases ih (if p i then max a i else a) with h | h
    · rw [h]
      by_cases hp : p i = true

      · rcases max_choice a i with hm | hm <;> simp [hp, hm]
      · simp only [Bool.not_eq_true] at hp
        simp [hp]
    · right; simp [h]

/-- The two boiler-unit scans agree: the csv-side scan of `sup/ret/fire` over
    1..9 restricted below 5 equals the combined ground-truth scans over 1..4
    (given 0/1-valued flags, which make `> 0` and `== 1` coincide). -/
theorem gtPos_eq_varsIsOne (v : Row) (s : String)
    (hbool : ∀ c, rowGet v c = none ∨ rowGet v c = some 0 ∨ rowGet v c = some 1) :
    gtPos (rowGet v s) = varsIsOne v s := by
  rcases hbool s with h | h | h <;> simp [gtPos, varsIsOne, h]

theorem max_boiler_eq_maxSat (v : Row) :
    max_boiler_from_sensors v =
      maxSat (fun i =>
        varsIsOne v s!"sup{i}" || varsIsOne v s!"ret{i}" || varsIsOne v s!"fire{i}")
        (List.range' 1 9) 0 := rfl

theorem gt_fire_eq_maxSat (v : Row) :
    gt_fire_count v =
      maxSat (fun i => gtPos (rowGet v s!"fire{i}")) (List.range' 1 4) 0 := rfl

theorem gt_sup_eq_maxSat (v : Row) :
    gt_sup_count v =
      maxSat (fun i => gtPos (rowGet v s!"sup{i}")) (List.range' 1 4) 0 := rfl

theorem gt_ret_eq_maxSat (v : Row) :
    gt_ret_count v =
      maxSat (fun i => gtPos (rowGet v s!"ret{i}")) (List.range' 1 4) 0 := rfl

/-- Splitting the 1..9 scan at 4. -/
theorem maxSat_range9_eq (p : Nat → Bool) :
    maxSat p (List.range' 1 9) 0 =
      max (maxSat p (List.range' 1 4) 0) (maxSat p (List.range' 5 5) 0) := by
  have hsplit : List.range' 1 9 = List.range' 1 4 ++ List.range' 5 5 := rfl
  rw [hsplit, maxSat_append, maxSat_base]

/-- A 5..9 scan bounded by 4 found nothing. -/
theorem maxSat_high_eq_zero (p : Nat → Bool)
    (h : maxSat p (List.range' 5 5) 0 ≤ 4) :
    maxSat p (List.range' 5 5) 0 = 0 := by
  rcases maxSat_mem p (List.range' 5 5) 0 with hm | hm
  · exact hm
  · exfalso
    have h5 : List.range' 5 5 = [5, 6, 7, 8, 9] := rfl
    rw [h5] at hm h
    simp only [List.mem_cons, List.not_mem_nil, or_false] at hm
    rcases hm with h' | h' | h' | h' | h' <;> omega

/-! ### Claims C1, C2, C3: the boiler-count heuristics -/

/-- C1 counterexample: for the boiler-class system type "Boiler" with declared
    count `b_number = 0` and a sensor row with no flags at all,
    `_analyze_equipment_count` returns an empty boiler list, so the
    equipment-inference engine's inventory does not have the claimed floor of
    one boiler. -/
theorem C1_counterexample :
    is_boiler_system "Boiler" = true ∧
    (analyze_equipment_count [] (some 0) "1" "Boiler").boilers = [] := by
  decide

/-- C1 amended: for a boiler-class system type, the inferred boiler list is
    non-empty exactly when there is some evidence: a positive declared count,
    a numbered boiler sensor flag, or (only when the declared count is missing
    or negative) an unnumbered boiler-generic flag.  With a declared count of
    zero and no sensor evidence the list is empty. -/
theorem C1_theorem (v : Row) (bN : Option Int) (tag st : String)
    (hb : is_boiler_system st = true) :
    (analyze_equipment_count v bN tag st).boilers ≠ [] ↔
      ((∃ n, bN = some n ∧ 0 < n) ∨ 0 < max_boiler_from_sensors v ∨
        (has_unnumbered_boiler_sensor v = true ∧
          (bN = none ∨ ∃ n, bN = some n ∧ n < 0))) := by
  rcases bN with _ | n
  · unfold analyze_equipment_count
    simp only [hb, if_pos]
    split_ifs with h1 <;>
      rcases Nat.eq_zero_or_pos (max_boiler_from_sensors v) with hm | hm <;>
      simp_all [List.range'_eq_nil, Bool.and_eq_true] <;> omega
  · unfold analyze_equipment_count
    simp only [hb, if_pos]
    split_ifs with h1 h2 h3 h4 <;>
      rcases Nat.eq_zero_or_pos (max_boiler_from_sensors v) with hm | hm <;>
      simp_all [List.range'_eq_nil, Bool.and_eq_true] <;> omega

/-- C1 witness: a condensing building with a `sup1` flag and no declared count
    gets a non-empty boiler list. -/
theorem C1_witness :
    (analyze_equipment_count [("sup1", some 1)] none "9" "Condensing").boilers ≠ [] :=
  (C1_theorem [("sup1", some 1)] none "9" "Condensing" (by decide)).mpr
    (Or.inr (Or.inl (by decide)))

/-- C2 counterexample: with `b_number = 0`, system type "Boiler", and the
    unnumbered boiler-generic flag `sup` present, the engine still infers zero
    boilers (and records a warning): the unnumbered-flag inference claimed for
    the `b_number = 0` case does not happen there. -/
theorem C2_counterexample :
    has_unnumbered_boiler_sensor [("sup", some 1)] = true ∧
    is_boiler_system "Boiler" = true ∧
    (analyze_equipment_count [("sup", some 1)] (some 0) "1" "Boiler").boilers = [] ∧
    (analyze_equipment_count [("sup", some 1)] (some 0) "1" "Boiler").warnings ≠ [] := by
  decide

/-- C2 amended: when the declared count is exactly zero on a boiler-class
    system type, the engine uses the numbered-sensor-inferred count (possibly
    zero) and always records a warning; unnumbered boiler-generic flags are
    consulted only when the declared count is missing or negative. -/
theorem C2_theorem (v : Row) (tag st : String) (hb : is_boiler_system st = true) :
    (analyze_equipment_count v (some 0) tag st).boilers =
      List.range' 1 (max_boiler_from_sensors v) ∧
    (analyze_equipment_count v (some 0) tag st).warnings ≠ [] := by
  unfold analyze_equipment_count
  simp only [hb, if_pos]
  by_cases hm : 0 < max_boiler_from_sensors v <;> simp_all

/-- C2 witness: concrete instance of `C2_theorem` at a row with `sup2` set. -/
theorem C2_witness :
    (analyze_equipment_count [("sup2", some 1)] (some 0) "3" "Non-condensing").boilers =
      List.range' 1 (max_boiler_from_sensors [("sup2", some 1)]) ∧
    (analyze_equipment_count [("sup2", some 1)] (some 0) "3" "Non-condensing").warnings ≠ [] :=
  C2_theorem [("sup2", some 1)] "3" "Non-condensing" (by decide)

/-- C3 counterexample: on a boiler-class building with declared count 0 and no
    sensor flags, the standalone ground-truth boiler count is 1 (it floors at
    one) while the equipment-inference engine infers 0 boilers — the two
    implementations do not compute the same rule on every input. -/
theorem C3_counterexample :
    calculate_boiler_count [] (some 0) "Boiler" = 1 ∧
    ((analyze_equipment_count [] (some 0) "1" "Boiler").boilers).length = 0 := by
  decide

/-! ### The graph builder -/

/-- Value of a regex digit group. -/
def digitsToNat (ds : List Char) : Nat :=
  ds.foldl (fun a c => a * 10 + (c.toNat - '0'.toNat)) 0

/-- Match `key` followed by one or more digits at the head of `cs` and return
    the digit group's value (one anchored attempt of `key(\d+)`). -/
def matchNumAfter (key : List Char) (cs : List Char) : Option Nat :=
  if key.isPrefixOf cs then
    let ds := (cs.drop key.length).takeWhile Char.isDigit
    if ds.isEmpty then none else some (digitsToNat ds)
  else none

/-- `re.search(r'(sup|ret|fire)(\d+)', sensor_name)` (csv_to_brick.py line
    617): leftmost position wins; at one position the alternatives are tried
    in order. -/
def findBoilerNum : List Char → Option Nat
  | [] => none
  | c :: cs =>
    match (matchNumAfter "sup".data (c :: cs)).orElse
        (fun _ => (matchNumAfter "ret".data (c :: cs)).orElse
          (fun _ => matchNumAfter "fire".data (c :: cs))) with
    | some n => some n
    | none => findBoilerNum cs

/-- One anchored attempt of `pmp(\d+)_`: "pmp", one or more digits, then an
    underscore (a shorter digit group cannot be followed by `_`, so greedy
    matching is exact). -/
def matchPmpAt (cs : List Char) : Option Nat :=
  if ("pmp".data).isPrefixOf cs then
    let ds := (cs.drop 3).takeWhile Char.isDigit
    if ds.isEmpty then none
    else
      match (cs.drop 3).drop ds.length with
      | '_' :: _ => some (digitsToNat ds)
      | _ => none
  else none

/-- `re.search(r'pmp(\d+)_', sensor_name)` (csv_to_brick.py line 623). -/
def findPmpNum : List Char → Option Nat
  | [] => none
  | c :: cs =>
    match matchPmpAt (c :: cs) with
    | some n => some n
    | none => findPmpNum cs

/-- One entry of the sensor-to-Brick mapping table
    (`sensor_to_brick_mapping.yaml`); `equipment` is optional because the code
    reads it with `.get('equipment', 'hot_water_system')`. -/
structure SensorInfo where
  equipment : Option String
  brick_class : String
  description : String
  unit : Option String
deriving Repr, DecidableEq

/-- Device number resolved for a sensor: a concrete unit or the special `all`
    marker used for generic pump sensors. -/
inductive DevNum where
  | num (n : Nat)
  | all
deriving Repr, DecidableEq

/-- The `equipment_uris` dict passed to `_create_individual_sensor` (the
    association lists keep the dict's insertion order). -/
structure EquipmentUris where
  hot_water_system : Node
  primary_loop : Option Node
  secondary_loop : Option Node
  boiler_uris : List (Nat × Node)
  pump_uris : List (Nat × Node)
  weather_station : Option Node
deriving Repr, DecidableEq

/-- Python `dict[n]` on a numbered-equipment dict. -/
def lookupNum (l : List (Nat × Node)) (n : Nat) : Option Node :=
  (l.find? (fun p => p.1 == n)).map (fun p => p.2)

/-- `CSVToBrickConverter._add_timeseries_reference` (csv_to_brick.py lines
    976-990); `bn` is the freshly allocated blank node. -/
def add_timeseries_reference (bn : Node) (sensorUri : Node)
    (buildingTag sensorName : String) : List Triple :=
  [(sensorUri, refN "hasExternalReference", bn),
   (bn, rdfType, refN "TimeseriesReference"),
   (bn, refN "hasTimeseriesId", .lit sensorName),
   (bn, refN "storedAt", .lit s!"{buildingTag}hhw_system_data.csv")]

/-- The `owl:sameAs` chain added after the generic-pump fan-out
    (csv_to_brick.py lines 680-682): one triple per consecutive pair. -/
def sameAsChain (us : List Node) : List Triple :=
  (us.zip us.tail).map (fun p => (p.1, owlN "sameAs", p.2))

/-- Resolution of `getattr(self.brick, brick_class.replace('brick:', ''),
    self.brick.Point)` — an rdflib `Namespace` resolves every attribute, so
    the fallback never fires and the result is always `brick[<stripped name>]`. -/
def brickClassOf (brickClass : String) : Node :=
  brickN (replaceAll brickClass "brick:" "")

/-- One iteration of the generic-pump fan-out loop (csv_to_brick.py lines
    653-676): the sensor-instance triples created for one pump unit `pn` with
    URI `pu`; `bn` is the blank node allocated for this instance's timeseries
    reference. -/
def generic_pump_block (bn : Node) (tag name : String) (info : SensorInfo)
    (pn : Nat) (pu : Node) : List Triple :=
  let u := hhwsN s!"building{tag}.secondary_pump{pn}.{name}"
  [(u, rdfType, brickClassOf info.brick_class),
   (u, rdfsLabel, .lit s!"{info.description} - Pump {pn} - Building {tag}")]
  ++ (match info.unit with
      | some un => [(u, brickN "hasUnit", unitN un)]
      | none => [])
  ++ add_timeseries_reference bn u tag name
  ++ [(pu, brickN "hasPoint", u)]

/-- All triples of the generic-pump fan-out loop, in loop order; the j-th
    iteration allocates blank node `supply (k + j)`. -/
def generic_pump_triples (supply : Nat → String) (k : Nat) (tag name : String)
    (info : SensorInfo) (ps : List (Nat × Node)) : List Triple :=
  ps.enum.flatMap (fun pj =>
    generic_pump_block (.bnode (supply (k + pj.1))) tag name info pj.2.1 pj.2.2)

/-- The `pump_sensor_uris` list collected by the fan-out loop. -/
def generic_pump_uris (tag name : String) (ps : List (Nat × Node)) : List Node :=
  ps.map (fun p => hhwsN s!"building{tag}.secondary_pump{p.1}.{name}")

/-- The common tail of `_create_individual_sensor` (csv_to_brick.py lines
    744-771): type, label, optional unit, timeseries reference, and the
    ownership edge — `hasPart` when the owner is the system or a loop,
    `hasPoint` otherwise.  Returns the added triples and the next blank-node
    index. -/
def attach_sensor (supply : Nat → String) (k : Nat) (buildingTag sensorName : String)
    (info : SensorInfo) (uris : EquipmentUris) (sensorUri target : Node) :
    List Triple × Nat :=
  let cls := brickClassOf info.brick_class
  let ts :=
    [(sensorUri, rdfType, cls),
     (sensorUri, rdfsLabel, .lit s!"{info.description} - Building {buildingTag}")]
    ++ (match info.unit with
        | some un => [(sensorUri, brickN "hasUnit", unitN un)]
        | none => [])
    ++ add_timeseries_reference (.bnode (supply k)) sensorUri buildingTag sensorName
    ++ [if target == uris.hot_water_system || some target == uris.primary_loop ||
          some target == uris.secondary_loop
        then (target, brickN "hasPart", sensorUri)
        else (target, brickN "hasPoint", sensorUri)]
  (ts, k + 1)

/-- `CSVToBrickConverter._create_individual_sensor` (csv_to_brick.py lines
    602-771).  `g` is the graph built so far (read for the weather-station
    existence check), `k` the next blank-node index.  Returns the triples this
    call adds (in order), the next blank-node index, and the possibly updated
    `equipment_uris`; `none` models a raised `KeyError` (a loop key accessed
    with `[...]` that is absent). -/
def create_individual_sensor (supply : Nat → String) (g : List Triple) (k : Nat)
    (buildingTag sensorName : String) (info : SensorInfo) (uris : EquipmentUris) :
    Option (List Triple × Nat × EquipmentUris) :=
  let equipment0 := info.equipment.getD "hot_water_system"
  let etd : String × Option DevNum :=
    if equipment0 == "boiler" then
      (equipment0, (findBoilerNum sensorName.data).map DevNum.num)
    else if equipment0 == "pump" then
      match findPmpNum sensorName.data with
      | some n => (equipment0, some (DevNum.num n))
      | none =>
        if uris.pump_uris.length > 0 then (equipment0, some DevNum.all)
        else ("secondary_loop", none)
    else (equipment0, none)
  let equipment_type := etd.1
  let device_number := etd.2
  if equipment_type == "boiler" && device_number.isSome then
    match device_number with
    | some (DevNum.num n) =>
      (match lookupNum uris.boiler_uris n with
       | some target =>
         let r := attach_sensor supply k buildingTag sensorName info uris
           (hhwsN s!"building{buildingTag}.boiler{n}.{sensorName}") target
         some (r.1, r.2, uris)
       | none =>
         let r := attach_sensor supply k buildingTag sensorName info uris
           (hhwsN s!"building{buildingTag}.hws.secondary_loop.{sensorName}")
           (uris.secondary_loop.getD uris.hot_water_system)
         some (r.1, r.2, uris))
    | _ =>
      let r := attach_sensor supply k buildingTag sensorName info uris
        (hhwsN s!"building{buildingTag}.hws.secondary_loop.{sensorName}")
        (uris.secondary_loop.getD uris.hot_water_system)
      some (r.1, r.2, uris)
  else if equipment_type == "pump" && device_number.isSome then
    match device_number with
    | some DevNum.all =>
      some (generic_pump_triples supply k buildingTag sensorName info uris.pump_uris
          ++ sameAsChain (generic_pump_uris buildingTag sensorName uris.pump_uris),
        k + uris.pump_uris.length, uris)
    | some (DevNum.num n) =>
      (match lookupNum uris.pump_uris n with
       | some target =>
         let r := attach_sensor supply k buildingTag sensorName info uris
           (hhwsN s!"building{buildingTag}.secondary_pump{n}.{sensorName}") target
         some (r.1, r.2, uris)
       | none =>
         let r := attach_sensor supply k buildingTag sensorName info uris
           (hhwsN s!"building{buildingTag}.hws.secondary_loop.{sensorName}")
           (uris.secondary_loop.getD uris.hot_water_system)
         some (r.1, r.2, uris))
    | none =>
      let r := attach_sensor supply k buildingTag sensorName info uris
        (hhwsN s!"building{buildingTag}.hws.secondary_loop.{sensorName}")
        (uris.secondary_loop.getD uris.hot_water_system)
      some (r.1, r.2, uris)
  else if equipment_type == "primary_loop" then
    match uris.primary_loop with
    | some target =>
      let r := attach_sensor supply k buildingTag sensorName info uris
        (hhwsN s!"building{buildingTag}.hws.primary_loop.{sensorName}") target
      some (r.1, r.2, uris)
    | none => none
  else if equipment_type == "secondary_loop" then
    match uris.secondary_loop with
    | some target =>
      let r := attach_sensor supply k buildingTag sensorName info uris
        (hhwsN s!"building{buildingTag}.hws.secondary_loop.{sensorName}") target
      some (r.1, r.2, uris)
    | none => none
  else if equipment_type == "weather_station" then
    let buildingUri := hhwsN s!"building{buildingTag}"
    let wsUri := hhwsN s!"building{buildingTag}.weather_station"
    let sensorUri := hhwsN s!"building{buildingTag}.weather_station.{sensorName}"
    match uris.weather_station with
    | some target =>
      let r := attach_sensor supply k buildingTag sensorName info uris sensorUri target
      some (r.1, r.2, uris)
    | none =>
      let wsTriples :=
        if (wsUri, rdfType, brickN "Weather_Station") ∈ g then []
        else
          [(wsUri, rdfType, brickN "Weather_Station"),
           (wsUri, rdfsLabel, .lit s!"Weather Station - Building {buildingTag}"),
           (buildingUri, recN "isLocationOf", wsUri)]
      let uris' := { uris with weather_station := some wsUri }
      let r := attach_sensor supply k buildingTag sensorName info uris' sensorUri wsUri
      some (wsTriples ++ r.1, r.2, uris')
  else if equipment_type == "hot_water_system" then
    let r := attach_sensor supply k buildingTag sensorName info uris
      (hhwsN s!"building{buildingTag}.hws.{sensorName}") uris.hot_water_system
    some (r.1, r.2, uris)
  else
    match uris.secondary_loop with
    | some target =>
      let r := attach_sensor supply k buildingTag sensorName info uris
        (hhwsN s!"building{buildingTag}.hws.secondary_loop.{sensorName}") target
      some (r.1, r.2, uris)
    | none =>
      let r := attach_sensor supply k buildingTag sensorName info uris
        (hhwsN s!"building{buildingTag}.hws.{sensorName}") uris.hot_water_system
      some (r.1, r.2, uris)

/-- One metadata row's cells, modelled post-coercion: `Option Int` for the
    integer-parsed cells, `Option String` for cells attached verbatim as
    literals (`none` = missing/NA, skipped by the safe converters). -/
structure Metadata where
  b_number : Option Int
  area : Option String
  bldg_type : Option String
  bldg_type_hl : Option String
  year : Option Int
  decade : Option Int
  climate : Option String
  t_hdd : Option String
  system : Option String
  system_hl : Option String
  design_supply : Option String
  design_return : Option String
  org : Option String
  b_manufacturer : Option String
  b_model : Option String
  b_input : Option String
  b_output : Option String
  b_efficiency : Option String
  b_min_turndown : Option String
  b_min_flow : Option String
  b_redundancy : Option String
deriving Repr, DecidableEq

/-- A property triple emitted only when the cell is present. -/
def opt_triple (o : Option String) (f : String → Triple) : List Triple :=
  match o with
  | some v => [f v]
  | none => []

/-- Like `opt_triple` for integer-valued cells. -/
def opt_int_triple (o : Option Int) (f : Int → Triple) : List Triple :=
  match o with
  | some v => [f v]
  | none => []

/-- `CSVToBrickConverter._create_building` (csv_to_brick.py lines 791-863). -/
def create_building (buildingTag : String) (m : Metadata) : List Triple :=
  let b := hhwsN s!"building{buildingTag}"
  [(b, rdfType, recN "Building"),
   (b, rdfsLabel, .lit s!"Building {buildingTag}")]
  ++ opt_triple m.area (fun x => (b, hhwsN "hasArea", .lit x))
  ++ opt_triple m.bldg_type (fun x => (b, hhwsN "hasBuildingType", .lit x))
  ++ opt_triple m.bldg_type_hl (fun x => (b, hhwsN "hasHighLevelBuildingType", .lit x))
  ++ opt_int_triple m.year (fun x => (b, hhwsN "hasConstructionYear", .lit (toString x)))
  ++ opt_int_triple m.decade (fun x => (b, hhwsN "hasConstructionDecade", .lit (toString x)))
  ++ opt_triple m.climate (fun x => (b, hhwsN "hasClimateZone", .lit x))
  ++ opt_triple m.t_hdd (fun x => (b, hhwsN "hasHeatingDesignTemperature", .lit x))
  ++ opt_triple m.system (fun x => (b, hhwsN "hasSystemType", .lit x))
  ++ opt_triple m.system_hl (fun x => (b, hhwsN "hasHighLevelSystemType", .lit x))
  ++ opt_triple m.design_supply (fun x => (b, hhwsN "hasDesignSupplyTemperature", .lit x))
  ++ opt_triple m.design_return (fun x => (b, hhwsN "hasDesignReturnTemperature", .lit x))
  ++ opt_triple m.org (fun x => (b, hhwsN "belongsToOrganization", .lit x))

/-- `CSVToBrickConverter._create_sensor_points` (csv_to_brick.py lines
    581-600): iterate the sensor columns past the fixed 3-column head
    (tag, org, datetime), creating a sensor for every column whose value is 1
    and that has a mapping (unmapped codes are skipped with a log warning). -/
def create_sensor_points (supply : Nat → String) (buildingTag : String) (varsData : Row)
    (mappings : String → Option SensorInfo)
    (st : List Triple × Nat × EquipmentUris) :
    Option (List Triple × Nat × EquipmentUris) :=
  (varsData.drop 3).foldlM
    (fun (acc : List Triple × Nat × EquipmentUris) cell =>
      if cell.2 == some (1 : Int) then
        match mappings cell.1 with
        | some info =>
          match create_individual_sensor supply acc.1 acc.2.1 buildingTag cell.1
              info acc.2.2 with
          | some (ts, k', u') => some (acc.1 ++ ts, k', u')
          | none => none
        | none => some acc
      else some acc) st

/-- `CSVToBrickConverter._create_boiler_system` (csv_to_brick.py lines
    332-482).  `g`, `k`, `warnings` thread the converter's graph, blank-node
    index, and `validation_warnings`; the result is the updated triple list
    (in insertion order), blank-node index, and warnings. -/
def create_boiler_system (supply : Nat → String) (buildingTag : String) (m : Metadata)
    (varsData : Row) (mappings : String → Option SensorInfo) (systemType : String)
    (g : List Triple) (k : Nat) (warnings : List String) :
    Option (List Triple × Nat × List String) :=
  let ec := analyze_equipment_count varsData m.b_number buildingTag systemType
  let buildingUri := hhwsN s!"building{buildingTag}"
  let buildingTriples := create_building buildingTag m
  let systemUri := hhwsN s!"building{buildingTag}.hws"
  let systemTriples :=
    [(systemUri, rdfType, brickN "Hot_Water_System"),
     (systemUri, rdfsLabel, .lit s!"Hot Water System - Building {buildingTag}"),
     (buildingUri, recN "isLocationOf", systemUri)]
  let primaryLoopUri := hhwsN s!"building{buildingTag}.hws.primary_loop"
  let primaryTriples :=
    [(primaryLoopUri, rdfType, brickN "Hot_Water_Loop"),
     (primaryLoopUri, rdfsLabel,
      .lit s!"Primary Hot Water Loop - Building {buildingTag}"),
     (systemUri, brickN "hasPart", primaryLoopUri)]
  let secondaryLoopUri := hhwsN s!"building{buildingTag}.hws.secondary_loop"
  let secondaryTriples :=
    [(secondaryLoopUri, rdfType, brickN "Hot_Water_Loop"),
     (secondaryLoopUri, rdfsLabel,
      .lit s!"Secondary Hot Water Loop - Building {buildingTag}"),
     (systemUri, brickN "hasPart", secondaryLoopUri)]
  let boilerCls : Node :=
    if systemType == "condensing" then brickN "Condensing_Natural_Gas_Boiler"
    else if systemType == "non-condensing" then brickN "Noncondensing_Natural_Gas_Boiler"
    else brickN "Natural_Gas_Boiler"
  let boilerLabel : Nat → String := fun bn =>
    if systemType == "condensing" then
      s!"Condensing Natural Gas Boiler {bn} - Building {buildingTag}"
    else if systemType == "non-condensing" then
      s!"Non-condensing Natural Gas Boiler {bn} - Building {buildingTag}"
    else s!"Natural Gas Boiler {bn} - Building {buildingTag}"
  let boilerTriples := ec.boilers.flatMap (fun bn =>
    let bu := hhwsN s!"building{buildingTag}.boiler{bn}"
    [(bu, rdfType, boilerCls),
     (bu, rdfsLabel, .lit (boilerLabel bn)),
     (primaryLoopUri, brickN "hasPart", bu)]
    ++ opt_triple m.b_manufacturer (fun x => (bu, hhwsN "hasManufacturer", .lit x))
    ++ opt_triple m.b_model (fun x => (bu, hhwsN "hasModel", .lit x))
    ++ opt_triple m.b_input (fun x => (bu, hhwsN "hasNominalInputPower", .lit x))
    ++ opt_triple m.b_output (fun x => (bu, hhwsN "hasNominalOutputPower", .lit x))
    ++ opt_triple m.b_efficiency (fun x => (bu, hhwsN "hasNominalEfficiency", .lit x))
    ++ opt_triple m.b_min_turndown (fun x => (bu, hhwsN "hasMinimumTurndown", .lit x))
    ++ opt_triple m.b_min_flow (fun x => (bu, hhwsN "hasMinimumFlowRequirement", .lit x))
    ++ opt_triple m.b_redundancy (fun x => (bu, hhwsN "hasRedundancyLevel", .lit x)))
  let bNumberTriples := opt_int_triple m.b_number
    (fun x => (systemUri, hhwsN "hasBoilerCount", .lit (toString x)))
  let primaryPumpUri := hhwsN s!"building{buildingTag}.primary_pump1"
  let primaryPumpTriples :=
    [(primaryPumpUri, rdfType, brickN "Pump"),
     (primaryPumpUri, rdfsLabel,
      .lit s!"Primary Circulation Pump 1 - Building {buildingTag}"),
     (primaryLoopUri, brickN "hasPart", primaryPumpUri)]
  let pumpList := if ec.pumps.isEmpty then [1] else ec.pumps
  let secondaryPumps := pumpList.map (fun pn =>
    (pn, hhwsN s!"building{buildingTag}.secondary_pump{pn}"))
  let secondaryPumpTriples := secondaryPumps.flatMap (fun p =>
    [(p.2, rdfType, brickN "Pump"),
     (p.2, rdfsLabel, .lit s!"Secondary Circulation Pump {p.1} - Building {buildingTag}"),
     (secondaryLoopUri, brickN "hasPart", p.2)])
  let feedsTriples := ec.boilers.map (fun bn =>
    (hhwsN s!"building{buildingTag}.boiler{bn}", brickN "feeds", primaryPumpUri))
  let loopFeeds : List Triple := [(primaryLoopUri, brickN "feeds", secondaryLoopUri)]
  let uris : EquipmentUris :=
    { hot_water_system := systemUri,
      primary_loop := some primaryLoopUri,
      secondary_loop := some secondaryLoopUri,
      boiler_uris := ec.boilers.map (fun bn =>
        (bn, hhwsN s!"building{buildingTag}.boiler{bn}")),
      pump_uris := secondaryPumps,
      weather_station := none }
  let g1 := g ++ buildingTriples ++ systemTriples ++ primaryTriples ++ secondaryTriples
    ++ boilerTriples ++ bNumberTriples ++ primaryPumpTriples ++ secondaryPumpTriples
    ++ feedsTriples ++ loopFeeds
  (create_sensor_points supply buildingTag varsData mappings (g1, k, uris)).map
    (fun r => (r.1, r.2.1, warnings ++ ec.warnings))

/-- `CSVToBrickConverter._create_district_hw_system` (csv_to_brick.py lines
    484-531). -/
def create_district_hw_system (supply : Nat → String) (buildingTag : String)
    (m : Metadata) (varsData : Row) (mappings : String → Option SensorInfo)
    (g : List Triple) (k : Nat) (warnings : List String) :
    Option (List Triple × Nat × List String) :=
  let ec := analyze_equipment_count varsData m.b_number buildingTag "district hw"
  let buildingUri := hhwsN s!"building{buildingTag}"
  let buildingTriples := create_building buildingTag m
  let systemUri := hhwsN s!"building{buildingTag}.hws"
  let systemTriples :=
    [(systemUri, rdfType, brickN "Hot_Water_System"),
     (systemUri, rdfsLabel, .lit s!"District Hot Water System - Building {buildingTag}"),
     (buildingUri, recN "isLocationOf", systemUri)]
  let secondaryLoopUri := hhwsN s!"building{buildingTag}.hws.secondary_loop"
  let secondaryTriples :=
    [(secondaryLoopUri, rdfType, brickN "Hot_Water_Loop"),
     (secondaryLoopUri, rdfsLabel, .lit s!"Hot Water Loop - Building {buildingTag}"),
     (systemUri, brickN "hasPart", secondaryLoopUri)]
  let pumpList := if ec.pumps.isEmpty then [1] else ec.pumps
  let pumps := pumpList.map (fun pn => (pn, hhwsN s!"building{buildingTag}.pump{pn}"))
  let pumpTriples := pumps.flatMap (fun p =>
    [(p.2, rdfType, brickN "Pump"),
     (p.2, rdfsLabel, .lit s!"Circulation Pump {p.1} - Building {buildingTag}"),
     (secondaryLoopUri, brickN "hasPart", p.2)])
  let uris : EquipmentUris :=
    { hot_water_system := systemUri,
      primary_loop := none,
      secondary_loop := some secondaryLoopUri,
      boiler_uris := [],
      pump_uris := pumps,
      weather_station := none }
  let g1 := g ++ buildingTriples ++ systemTriples ++ secondaryTriples ++ pumpTriples
  (create_sensor_points supply buildingTag varsData mappings (g1, k, uris)).map
    (fun r => (r.1, r.2.1, warnings ++ ec.warnings))

/-- `CSVToBrickConverter._create_district_steam_system` (csv_to_brick.py lines
    533-579). -/
def create_district_steam_system (supply : Nat → String) (buildingTag : String)
    (m : Metadata) (varsData : Row) (mappings : String → Option SensorInfo)
    (g : List Triple) (k : Nat) (warnings : List String) :
    Option (List Triple × Nat × List String) :=
  let ec := analyze_equipment_count varsData m.b_number buildingTag "district steam"
  let buildingUri := hhwsN s!"building{buildingTag}"
  let buildingTriples := create_building buildingTag m
  let systemUri := hhwsN s!"building{buildingTag}.hws"
  let systemTriples :=
    [(systemUri, rdfType, brickN "Hot_Water_System"),
     (systemUri, rdfsLabel,
      .lit s!"District Steam to Hot Water System - Building {buildingTag}"),
     (buildingUri, recN "isLocationOf", systemUri)]
  let secondaryLoopUri := hhwsN s!"building{buildingTag}.hws.secondary_loop"
  let secondaryTriples :=
    [(secondaryLoopUri, rdfType, brickN "Hot_Water_Loop"),
     (secondaryLoopUri, rdfsLabel, .lit s!"Hot Water Loop - Building {buildingTag}"),
     (systemUri, brickN "hasPart", secondaryLoopUri)]
  let pumpList := if ec.pumps.isEmpty then [1] else ec.pumps
  let pumps := pumpList.map (fun pn => (pn, hhwsN s!"building{buildingTag}.pump{pn}"))
  let pumpTriples := pumps.flatMap (fun p =>
    [(p.2, rdfType, brickN "Pump"),
     (p.2, rdfsLabel, .lit s!"Circulation Pump {p.1} - Building {buildingTag}"),
     (secondaryLoopUri, brickN "hasPart", p.2)])
  let uris : EquipmentUris :=
    { hot_water_system := systemUri,
      primary_loop := none,
      secondary_loop := some secondaryLoopUri,
      boiler_uris := [],
      pump_uris := pumps,
      weather_station := none }
  let g1 := g ++ buildingTriples ++ systemTriples ++ secondaryTriples ++ pumpTriples
  (create_sensor_points supply buildingTag varsData mappings (g1, k, uris)).map
    (fun r => (r.1, r.2.1, warnings ++ ec.warnings))

/-- `CSVToBrickConverter._matches_system_type` (csv_to_brick.py lines
    204-220). -/
def matches_system_type (buildingSystem targetType : String) : Bool :=
  let t := strTrim (strLower targetType)
  let b := strTrim (strLower buildingSystem)
  if t == "boiler" then b == "boiler" || b == "condensing" || b == "non-condensing"
  else if t == "condensing" then b == "condensing"
  else if t == "non-condensing" then b == "non-condensing"
  else if t == "district hw" then b == "district hw"
  else if t == "district steam" then b == "district steam"
  else b == t

/-- `CSVToBrickConverter._add_custom_brick_classes` (csv_to_brick.py lines
    195-202): the ontology-declaration triples added before the building
    loop. -/
def custom_brick_classes : List Triple :=
  [(brickN "Firing_Rate_Sensor", rdfType, owlN "Class"),
   (brickN "Firing_Rate_Sensor", rdfsSubClassOf, brickN "Point"),
   (brickN "Firing_Rate_Sensor", rdfsLabel, .lit "Firing Rate Sensor"),
   (brickN "Firing_Rate_Sensor", rdfsComment,
    .lit "A sensor that measures the firing rate of a boiler or similar combustion equipment, typically expressed as a percentage of maximum capacity.")]

/-- The converter's namespace URLs (csv_to_brick.py lines 33-38). -/
def nsUrl (p : String) : String :=
  if p == "brick" then "https://brickschema.org/schema/Brick#"
  else if p == "hhws" then "https://hhws.example.org#"
  else if p == "rec" then "https://w3id.org/rec#"
  else if p == "unit" then "http://qudt.org/vocab/unit/"
  else if p == "owl" then "http://www.w3.org/2002/07/owl#"
  else if p == "ref" then "https://brickschema.org/schema/Brick/ref#"
  else if p == "rdf" then "http://www.w3.org/1999/02/22-rdf-syntax-ns#"
  else if p == "rdfs" then "http://www.w3.org/2000/01/rdf-schema#"
  else "http://www.w3.org/2001/XMLSchema#"

/-- Converter state: the graph, the prefix bindings of the current graph, and
    the accumulated validation warnings.  Only bindings established by this
    repository's own `bind` calls are tracked; whatever a fresh rdflib
    `Graph()` binds by itself is external behaviour. -/
structure ConverterState where
  graph : List Triple
  bindings : String → Option String
  validation_warnings : List String

/-- `graph.bind(prefix, ns, override=True, replace=True)`. -/
def bindNS (b : String → Option String) (p ns : String) : String → Option String :=
  fun q => if q == p then some ns else b q

/-- `CSVToBrickConverter.__init__` (csv_to_brick.py lines 24-49): fresh empty
    graph, empty warning list, and nine prefixes bound. -/
def initConverter : ConverterState :=
  { graph := [],
    bindings :=
      bindNS (bindNS (bindNS (bindNS (bindNS (bindNS (bindNS (bindNS (bindNS
        (fun _ => none) "brick" (nsUrl "brick")) "hhws" (nsUrl "hhws"))
        "rec" (nsUrl "rec")) "unit" (nsUrl "unit")) "owl" (nsUrl "owl"))
        "ref" (nsUrl "ref")) "rdf" (nsUrl "rdf")) "rdfs" (nsUrl "rdfs"))
        "xsd" (nsUrl "xsd"),
    validation_warnings := [] }

/-- `CSVToBrickConverter.clear_graph` (csv_to_brick.py lines 778-789): new
    empty graph, cleared warnings, and re-binding of exactly seven prefixes —
    `brick`, `hhws`, `unit`, `owl`, `ref`, `rdf`, `rdfs` (`rec` and `xsd` are
    not re-bound). -/
def clear_graph (_st : ConverterState) : ConverterState :=
  { graph := [],
    bindings :=
      bindNS (bindNS (bindNS (bindNS (bindNS (bindNS (bindNS
        (fun _ => none) "brick" (nsUrl "brick")) "hhws" (nsUrl "hhws"))
        "unit" (nsUrl "unit")) "owl" (nsUrl "owl")) "ref" (nsUrl "ref"))
        "rdf" (nsUrl "rdf")) "rdfs" (nsUrl "rdfs"),
    validation_warnings := [] }

/-! ### Decimal representation of naturals is injective

The hierarchical identifiers embed unit numbers via `toString`; these lemmas
show distinct unit numbers give distinct identifiers. -/

/-- Decimal digit list of `n`, most significant digit first. -/
def decDigits (n : Nat) : List Char :=
  if n < 10 then [Nat.digitChar n]
  else decDigits (n / 10) ++ [Nat.digitChar (n % 10)]
termination_by n
decreasing_by exact Nat.div_lt_self (by omega) (by omega)

theorem decDigits_lt (n : Nat) (h : n < 10) : decDigits n = [Nat.digitChar n] := by
  rw [decDigits]
  simp [h]

theorem decDigits_ge (n : Nat) (h : ¬ n < 10) :
    decDigits n = decDigits (n / 10) ++ [Nat.digitChar (n % 10)] := by
  conv_lhs => rw [decDigits]
  simp [h]

theorem decDigits_ne_nil (n : Nat) : decDigits n ≠ [] := by
  by_cases h : n < 10
  · rw [decDigits_lt n h]
    simp
  · rw [decDigits_ge n h]
    simp

theorem toDigitsCore_eq_decDigits :
    ∀ (f n : Nat) (l : List Char), n < f →
      Nat.toDigitsCore 10 f n l = decDigits n ++ l := by
  intro f
  induction f with
  | zero => intro n l h; omega
  | succ f ih =>
    intro n l h
    by_cases h10 : n < 10
    · have hdiv : n / 10 = 0 := Nat.div_eq_of_lt h10
      have hmod : n % 10 = n := Nat.mod_eq_of_lt h10
      rw [Nat.toDigitsCore, decDigits_lt n h10]
      simp [hdiv, hmod]
    · have hdiv : n / 10 ≠ 0 := by
        intro h0
        have hm10 : n % 10 < 10 := Nat.mod_lt _ (by omega)
        have := Nat.div_add_mod n 10
        omega
      rw [Nat.toDigitsCore]
      simp only [hdiv, if_neg, not_false_iff]
      rw [ih (n / 10) _ (by
        have h1 : n / 10 < n := Nat.div_lt_self (by omega) (by omega)
        omega), decDigits_ge n h10]
      simp

theorem natRepr_eq_decDigits (n : Nat) : Nat.repr n = (decDigits n).asString := by
  rw [Nat.repr, Nat.toDigits,
    toDigitsCore_eq_decDigits (n + 1) n [] (Nat.lt_succ_self n), List.append_nil]

theorem digitChar_inj_lt :
    ∀ a < 10, ∀ b < 10, Nat.digitChar a = Nat.digitChar b → a = b := by
  decide

theorem decDigits_inj : ∀ m n : Nat, decDigits m = decDigits n → m = n := by
  intro m
  induction m using Nat.strong_induction_on with
  | _ m ih =>
    intro n h
    by_cases hm : m < 10 <;> by_cases hn : n < 10
    · rw [decDigits_lt m hm, decDigits_lt n hn] at h
      simp only [List.cons.injEq, and_true] at h
      exact digitChar_inj_lt m hm n hn h
    · exfalso
      rw [decDigits_lt m hm, decDigits_ge n hn] at h
      have hlen := congrArg List.length h
      have hpos : 0 < (decDigits (n / 10)).length :=
        List.length_pos.mpr (decDigits_ne_nil (n / 10))
      simp only [List.length_cons, List.length_nil, List.length_append] at hlen
      omega
    · exfalso
      rw [decDigits_ge m hm, decDigits_lt n hn] at h
      have hlen := congrArg List.length h
      have hpos : 0 < (decDigits (m / 10)).length :=
        List.length_pos.mpr (decDigits_ne_nil (m / 10))
      simp only [List.length_cons, List.length_nil, List.length_append] at hlen
      omega
    · rw [decDigits_ge m hm, decDigits_ge n hn] at h
      have hlen : (decDigits (m / 10)).length = (decDigits (n / 10)).length := by
        have := congrArg List.length h
        simp only [List.length_append, List.length_cons, List.length_nil] at this
        omega
      obtain ⟨h1, h2⟩ := List.append_inj h hlen
      have e1 : m / 10 = n / 10 :=
        ih (m / 10) (Nat.div_lt_self (by omega) (by omega)) (n / 10) h1
      have e2 : m % 10 = n % 10 := by
        apply digitChar_inj_lt _ (Nat.mod_lt _ (by omega)) _ (Nat.mod_lt _ (by omega))
        simpa using h2
      omega

theorem natRepr_inj {m n : Nat} (h : Nat.repr m = Nat.repr n) : m = n := by
  rw [natRepr_eq_decDigits, natRepr_eq_decDigits] at h
  apply decDigits_inj
  have : (decDigits m).asString.data = (decDigits n).asString.data := by rw [h]
  simpa [List.asString] using this

theorem natToString_inj {m n : Nat} (h : toString m = toString n) : m = n :=
  natRepr_inj h

/-- One row of the metadata table: the integer `tag` plus the typed cells. -/
structure MetaRow where
  tag : Int
  meta : Metadata
deriving Repr, DecidableEq

/-- Python `f"{building_tag}"` for the possibly absent CLI argument. -/
def showTagOpt : Option String → String
  | some bt => bt
  | none => "None"

/-- `CSVToBrickConverter.convert_to_brick` (csv_to_brick.py lines 85-188).
    The tables are given as parsed rows; `g0`/`w0` are the converter's graph
    and `validation_warnings` at entry (fresh: `custom_brick_classes` are
    added on top).  The first component models the returned graph (or the
    raised exception), the second the list of files written, in order — the
    serialized graph at `outputPath`, then, when warnings accumulated, the
    sidecar report.  File contents are produced by the external rdflib
    serializer and are not modelled. -/
def convert_to_brick (supply : Nat → String) (metadataRows : List MetaRow)
    (varsRows : List Row) (systemTypeArg : Option String) (buildingTag : Option String)
    (mappings : String → Option SensorInfo) (outputPath : String)
    (g0 : List Triple) (w0 : List String) :
    Except String (List Triple) × List String :=
  let mdf : List MetaRow := match buildingTag with
    | some bt => metadataRows.filter (fun r => toString r.tag == bt)
    | none => metadataRows
  let vdf : List Row := match buildingTag with
    | some bt => varsRows.filter (fun r =>
        match rowGet r "tag" with
        | some t => toString t == bt
        | none => false)
    | none => varsRows
  if mdf.isEmpty then
    (.error s!"No data found for building tag: {showTagOpt buildingTag}", [])
  else
    let systemType := match systemTypeArg with
      | some st => st
      | none =>
        match mdf with
        | [r] => strTrim (r.meta.system.getD "")
        | _ => ""
    let res := mdf.foldlM
      (fun (st : List Triple × Nat × List String) (r : MetaRow) =>
        let tag := toString r.tag
        let buildingSystemType := strTrim (r.meta.system.getD "")
        if systemType == "" || matches_system_type buildingSystemType systemType then
          match vdf.find? (fun vr => rowGet vr "tag" == some r.tag) with
          | some buildingVars =>
            if strLower systemType == "boiler" || strLower systemType == "condensing" ||
                strLower systemType == "non-condensing" then
              create_boiler_system supply tag r.meta buildingVars mappings
                (strLower buildingSystemType) st.1 st.2.1 st.2.2
            else if strLower systemType == "district hw" then
              create_district_hw_system supply tag r.meta buildingVars mappings
                st.1 st.2.1 st.2.2
            else if strLower systemType == "district steam" then
              create_district_steam_system supply tag r.meta buildingVars mappings
                st.1 st.2.1 st.2.2
            else some st
          | none => some st
        else some st)
      (g0 ++ custom_brick_classes, 0, w0)
    match res with
    | none => (.error "conversion failed", [])
    | some (g, _, ws) =>
      if ws.isEmpty then (.ok g, [outputPath])
      else (.ok g, [outputPath, replaceAll outputPath ".ttl" "_validation_warnings.txt"])

/-! ### Structural lemmas about the sensor-creation blocks -/

theorem mem_of_mem_enumFrom {α : Type} {p : Nat × α} :
    ∀ (l : List α) (n : Nat), p ∈ l.enumFrom n → p.2 ∈ l := by
  intro l
  induction l with
  | nil => intro n h; simp [List.enumFrom] at h
  | cons a t ih =>
    intro n h
    rw [List.enumFrom] at h
    rcases List.mem_cons.mp h with h | h
    · subst h; simp
    · exact List.mem_cons_of_mem _ (ih (n + 1) h)

theorem mem_of_mem_enum {α : Type} {p : Nat × α} {l : List α}
    (h : p ∈ l.enum) : p.2 ∈ l :=
  mem_of_mem_enumFrom l 0 h

theorem lookupNum_mem {l : List (Nat × Node)} {n : Nat} {t : Node}
    (h : lookupNum l n = some t) : t ∈ l.map (fun p => p.2) := by
  unfold lookupNum at h
  cases hf : l.find? (fun p => p.1 == n) with
  | none => rw [hf] at h; simp at h
  | some q =>
    rw [hf] at h
    simp only [Option.map, Option.some.injEq] at h
    subst h
    exact List.mem_map_of_mem _ (List.mem_of_find?_eq_some hf)

/-- The ownership rule for the shared tail of `_create_individual_sensor`:
    every `hasPart` edge it emits has the system or a loop as subject, and a
    `hasPoint` edge is emitted exactly when the target is not the system or a
    loop, with that target as subject. -/
theorem attach_sensor_ownership (supply : Nat → String) (k : Nat)
    (tag name : String) (info : SensorInfo) (uris : EquipmentUris)
    (su target : Node) :
    ∀ tr ∈ (attach_sensor supply k tag name info uris su target).1,
      (tr.2.1 = brickN "hasPart" →
        tr.1 = uris.hot_water_system ∨ some tr.1 = uris.primary_loop ∨
          some tr.1 = uris.secondary_loop) ∧
      (tr.2.1 = brickN "hasPoint" → tr.1 = target ∧
        ¬(target = uris.hot_water_system ∨ some target = uris.primary_loop ∨
          some target = uris.secondary_loop)) := by
  by_cases hc : (target == uris.hot_water_system || some target == uris.primary_loop ||
      some target == uris.secondary_loop) = true
  all_goals
    cases hiu : info.unit <;>
    simp only [Bool.or_eq_true, beq_iff_eq, not_or] at hc <;>
    simp [attach_sensor, add_timeseries_reference, hiu, hc, List.forall_mem_append,
      List.forall_mem_cons, brickN, rdfType, rdfsLabel, refN, unitN] <;>
    tauto

/-- The generic-pump fan-out block emits no `hasPart` edge, and its only
    `hasPoint` edge has the pump `pu` as subject. -/
theorem generic_pump_block_ownership (bn : Node) (tag name : String)
    (info : SensorInfo) (pn : Nat) (pu : Node) :
    ∀ tr ∈ generic_pump_block bn tag name info pn pu,
      tr.2.1 ≠ brickN "hasPart" ∧ (tr.2.1 = brickN "hasPoint" → tr.1 = pu) := by
  cases hiu : info.unit <;>
    simp [generic_pump_block, add_timeseries_reference, hiu, List.forall_mem_append,
      List.forall_mem_cons, brickN, rdfType, rdfsLabel, refN, unitN]

/-- Triples of the `owl:sameAs` chain carry only the `sameAs` relation. -/
theorem sameAsChain_rel (us : List Node) :
    ∀ tr ∈ sameAsChain us, tr.2.1 = owlN "sameAs" := by
  intro tr htr
  simp only [sameAsChain, List.mem_map] at htr
  obtain ⟨p, _, hp⟩ := htr
  subst hp
  rfl

/-! ### Claim C6: the ownership-edge selection rule -/


theorem C6_of_attach (supply : Nat → String) (k : Nat) (tag name : String)
    (info : SensorInfo) (uris : EquipmentUris) (su target : Node) (ws : Option Node)
    (ht : ¬(target = uris.hot_water_system ∨ some target = uris.primary_loop ∨
        some target = uris.secondary_loop) →
      target ∈ uris.boiler_uris.map (fun p => p.2) ∨
      target ∈ uris.pump_uris.map (fun p => p.2) ∨ some target = ws) :
    ∀ tr ∈ (attach_sensor supply k tag name info uris su target).1,
      (tr.2.1 = brickN "hasPart" →
        tr.1 = uris.hot_water_system ∨ some tr.1 = uris.primary_loop ∨
          some tr.1 = uris.secondary_loop) ∧
      (tr.2.1 = brickN "hasPoint" →
        tr.1 ∈ uris.boiler_uris.map (fun p => p.2) ∨
        tr.1 ∈ uris.pump_uris.map (fun p => p.2) ∨ some tr.1 = ws) := by
  intro tr htr
  have hown := attach_sensor_ownership supply k tag name info uris su target tr htr
  refine ⟨hown.1, fun hp => ?_⟩
  obtain ⟨he, hnot⟩ := hown.2 hp
  rw [he]
  exact ht hnot

theorem fallback_target_not (uris : EquipmentUris) :
    ¬¬(uris.secondary_loop.getD uris.hot_water_system = uris.hot_water_system ∨
      some (uris.secondary_loop.getD uris.hot_water_system) = uris.primary_loop ∨
      some (uris.secondary_loop.getD uris.hot_water_system) = uris.secondary_loop) := by
  intro hnot
  cases h : uris.secondary_loop with
  | none => exact hnot (Or.inl (by simp [h]))
  | some s => exact hnot (Or.inr (Or.inr (by simp [h])))

/-- C6: the ownership edge created for every sensor point correlates 1:1 with
    the owner's kind — `brick:hasPart` exactly when the owner is the
    Hot_Water_System or a Loop node, `brick:hasPoint` exactly when the owner
    is an equipment node (a boiler, a pump, or the weather station). -/
theorem C6_theorem (supply : Nat → String) (g : List Triple) (k : Nat)
    (tag name : String) (info : SensorInfo) (uris : EquipmentUris)
    (ts : List Triple) (k' : Nat) (uris' : EquipmentUris)
    (h : create_individual_sensor supply g k tag name info uris = some (ts, k', uris')) :
    ∀ tr ∈ ts,
      (tr.2.1 = brickN "hasPart" →
        tr.1 = uris.hot_water_system ∨ some tr.1 = uris.primary_loop ∨
          some tr.1 = uris.secondary_loop) ∧
      (tr.2.1 = brickN "hasPoint" →
        tr.1 ∈ uris.boiler_uris.map (fun p => p.2) ∨
        tr.1 ∈ uris.pump_uris.map (fun p => p.2) ∨
        some tr.1 = uris'.weather_station) := by
  unfold create_individual_sensor at h
  by_cases hb : info.equipment.getD "hot_water_system" = "boiler"
  · simp only [hb] at h
    cases hfb : findBoilerNum name.data with
    | some n =>
      simp only [hfb, Option.map, Option.isSome, Bool.and_true, beq_self_eq_true,
        reduceIte, String.reduceBEq, Bool.false_eq_true, if_false] at h
      cases hlk : lookupNum uris.boiler_uris n with
      | some target =>
        simp only [hlk, Option.some.injEq, Prod.mk.injEq] at h
        obtain ⟨hts, hk, hu⟩ := h
        subst hts; subst hu
        exact C6_of_attach supply k tag name info uris _ target _
          (fun _ => Or.inl (lookupNum_mem hlk))
      | none =>
        simp only [hlk, Option.some.injEq, Prod.mk.injEq] at h
        obtain ⟨hts, hk, hu⟩ := h
        subst hts; subst hu
        exact C6_of_attach supply k tag name info uris _ _ _
          (fun hnot => absurd hnot (fallback_target_not uris))
    | none =>
      simp only [hfb, Option.map, Option.isSome, Bool.and_false, beq_self_eq_true,
        reduceIte, String.reduceBEq, Bool.false_eq_true, if_false] at h
      cases hsl : uris.secondary_loop with
      | some target =>
        simp only [hsl, Option.some.injEq, Prod.mk.injEq] at h
        obtain ⟨hts, hk, hu⟩ := h
        subst hts; subst hu
        rw [← hsl]
        exact C6_of_attach supply k tag name info uris _ target _
          (fun hnot => absurd (Or.inr (Or.inr hsl.symm)) hnot)
      | none =>
        simp only [hsl, Option.some.injEq, Prod.mk.injEq] at h
        obtain ⟨hts, hk, hu⟩ := h
        subst hts; subst hu
        rw [← hsl]
        exact C6_of_attach supply k tag name info uris _ _ _
          (fun hnot => absurd (Or.inl rfl) hnot)
  · by_cases hp : info.equipment.getD "hot_water_system" = "pump"
    · simp only [hp, String.reduceBEq, Bool.false_eq_true, if_false] at h
      cases hfp : findPmpNum name.data with
      | some n =>
        simp only [hfp, Option.isSome, Bool.and_true, Bool.and_false, beq_self_eq_true,
          reduceIte, String.reduceBEq, Bool.false_eq_true, if_false] at h
        cases hlk : lookupNum uris.pump_uris n with
        | some target =>
          simp only [hlk, Option.some.injEq, Prod.mk.injEq] at h
          obtain ⟨hts, hk, hu⟩ := h
          subst hts; subst hu
          exact C6_of_attach supply k tag name info uris _ target _
            (fun _ => Or.inr (Or.inl (lookupNum_mem hlk)))
        | none =>
          simp only [hlk, Option.some.injEq, Prod.mk.injEq] at h
          obtain ⟨hts, hk, hu⟩ := h
          subst hts; subst hu
          exact C6_of_attach supply k tag name info uris _ _ _
            (fun hnot => absurd hnot (fallback_target_not uris))
      | none =>
        simp only [hfp] at h
        by_cases hlen : uris.pump_uris.length > 0
        · simp only [hlen, if_pos, Option.isSome, Bool.and_true, beq_self_eq_true,
            reduceIte, String.reduceBEq, Bool.false_eq_true, if_false,
            Option.some.injEq, Prod.mk.injEq] at h
          obtain ⟨hts, hk, hu⟩ := h
          subst hts; subst hu
          intro tr htr
          rcases List.mem_append.mp htr with htr | htr
          · simp only [generic_pump_triples, List.mem_flatMap] at htr
            obtain ⟨pj, hpj, htrb⟩ := htr
            have hbl := generic_pump_block_ownership _ tag name info pj.2.1 pj.2.2 tr htrb
            refine ⟨fun hpart => absurd hpart hbl.1, fun hpoint => ?_⟩
            right; left
            rw [hbl.2 hpoint]
            exact List.mem_map_of_mem _ (mem_of_mem_enum hpj)
          · have hrel := sameAsChain_rel _ tr htr
            rw [hrel]
            constructor <;> intro hcontra <;>
              simp [owlN, brickN, Node.uri.injEq] at hcontra
        · simp only [hlen, if_neg, not_false_iff, Option.isSome, Bool.and_false,
            beq_self_eq_true, reduceIte, String.reduceBEq, Bool.false_eq_true,
            if_false] at h
          cases hsl : uris.secondary_loop with
          | some target =>
            simp only [hsl, Option.some.injEq, Prod.mk.injEq] at h
            obtain ⟨hts, hk, hu⟩ := h
            subst hts; subst hu
            rw [← hsl]
            exact C6_of_attach supply k tag name info uris _ target _
              (fun hnot => absurd (Or.inr (Or.inr hsl.symm)) hnot)
          | none =>
            simp only [hsl] at h
            simp at h
    · by_cases hpl : info.equipment.getD "hot_water_system" = "primary_loop"
      · simp only [hpl, String.reduceBEq, Bool.false_eq_true, if_false,
          Bool.false_and, reduceIte] at h
        cases hplu : uris.primary_loop with
        | some target =>
          simp only [hplu, Option.some.injEq, Prod.mk.injEq] at h
          obtain ⟨hts, hk, hu⟩ := h
          subst hts; subst hu
          rw [← hplu]
          exact C6_of_attach supply k tag name info uris _ target _
            (fun hnot => absurd (Or.inr (Or.inl hplu.symm)) hnot)
        | none =>
          simp only [hplu] at h
          simp at h
      · by_cases hsl2 : info.equipment.getD "hot_water_system" = "secondary_loop"
        · simp only [hsl2, String.reduceBEq, Bool.false_eq_true, if_false,
            Bool.false_and, reduceIte] at h
          cases hslu : uris.secondary_loop with
          | some target =>
            simp only [hslu, Option.some.injEq, Prod.mk.injEq] at h
            obtain ⟨hts, hk, hu⟩ := h
            subst hts; subst hu
            rw [← hslu]
            exact C6_of_attach supply k tag name info uris _ target _
              (fun hnot => absurd (Or.inr (Or.inr hslu.symm)) hnot)
          | none =>
            simp only [hslu] at h
            simp at h
        · by_cases hws : info.equipment.getD "hot_water_system" = "weather_station"
          · simp only [hws, String.reduceBEq, Bool.false_eq_true, if_false,
              Bool.false_and, reduceIte] at h
            cases hwsu : uris.weather_station with
            | some target =>
              simp only [hwsu, Option.some.injEq, Prod.mk.injEq] at h
              obtain ⟨hts, hk, hu⟩ := h
              subst hts; subst hu
              exact C6_of_attach supply k tag name info uris _ target _
                (fun _ => Or.inr (Or.inr hwsu.symm))
            | none =>
              simp only [hwsu, Option.some.injEq, Prod.mk.injEq] at h
              obtain ⟨hts, hk, hu⟩ := h
              subst hts; subst hu
              intro tr htr
              rcases List.mem_append.mp htr with htr | htr
              · by_cases hmem : (hhwsN s!"building{tag}.weather_station", rdfType,
                    brickN "Weather_Station") ∈ g
                · simp [hmem] at htr
                · simp only [hmem, if_neg, not_false_iff, List.mem_cons,
                    List.not_mem_nil, or_false] at htr
                  rcases htr with h1 | h1 | h1 <;> subst h1 <;>
                    constructor <;> intro hcontra <;>
                    simp [brickN, rdfType, rdfsLabel, recN, Node.uri.injEq] at hcontra
              · have hres := C6_of_attach supply k tag name info
                  ({ uris with weather_station := some (hhwsN s!"building{tag}.weather_station") })
                  (hhwsN s!"building{tag}.weather_station.{name}")
                  (hhwsN s!"building{tag}.weather_station")
                  (some (hhwsN s!"building{tag}.weather_station"))
                  (fun _ => Or.inr (Or.inr rfl)) tr htr
                simpa using hres
          · by_cases hhw : info.equipment.getD "hot_water_system" = "hot_water_system"
            · simp only [hhw, String.reduceBEq, Bool.false_eq_true, if_false,
                Bool.false_and, reduceIte, Option.some.injEq, Prod.mk.injEq] at h
              obtain ⟨hts, hk, hu⟩ := h
              subst hts; subst hu
              exact C6_of_attach supply k tag name info uris _ _ _
                (fun hnot => absurd (Or.inl rfl) hnot)
            · simp only [beq_iff_eq, hb, hp, hpl, hsl2, hws, hhw, Option.isSome_none,
                Bool.and_false, Bool.false_and, Bool.false_eq_true, if_false,
                reduceIte] at h
              cases hslu : uris.secondary_loop with
              | some target =>
                simp only [hslu, Option.some.injEq, Prod.mk.injEq] at h
                obtain ⟨hts, hk, hu⟩ := h
                subst hts; subst hu
                rw [← hslu]
                exact C6_of_attach supply k tag name info uris _ target _
                  (fun hnot => absurd (Or.inr (Or.inr hslu.symm)) hnot)
              | none =>
                simp only [hslu, Option.some.injEq, Prod.mk.injEq] at h
                obtain ⟨hts, hk, hu⟩ := h
                subst hts; subst hu
                rw [← hslu]
                exact C6_of_attach supply k tag name info uris _ _ _
                  (fun hnot => absurd (Or.inl rfl) hnot)

/-- C6 witness: a concrete system-level sensor run through
    `create_individual_sensor`. -/
theorem C6_witness :
    ∃ ts k' uris', create_individual_sensor (fun j => toString j) [] 0 "1" "enab"
        { equipment := some "hot_water_system", brick_class := "brick:Point",
          description := "d", unit := none }
        { hot_water_system := hhwsN "building1.hws", primary_loop := none,
          secondary_loop := none, boiler_uris := [], pump_uris := [],
          weather_station := none } = some (ts, k', uris') ∧
      ∀ tr ∈ ts,
        (tr.2.1 = brickN "hasPart" →
          tr.1 = (hhwsN "building1.hws") ∨ some tr.1 = none ∨ some tr.1 = none) ∧
        (tr.2.1 = brickN "hasPoint" →
          tr.1 ∈ ([] : List (Nat × Node)).map (fun p => p.2) ∨
          tr.1 ∈ ([] : List (Nat × Node)).map (fun p => p.2) ∨
          some tr.1 = uris'.weather_station) :=
  ⟨_, _, _, rfl,
    C6_theorem (fun j => toString j) [] 0 "1" "enab"
      { equipment := some "hot_water_system", brick_class := "brick:Point",
        description := "d", unit := none }
      { hot_water_system := hhwsN "building1.hws", primary_loop := none,
        secondary_loop := none, boiler_uris := [], pump_uris := [],
        weather_station := none }
      _ _ _ rfl⟩

/-! ### Claims C5 and C10: the generic-pump fan-out -/

/-- URIRef test (sensor instances are URIRef nodes; the blank timeseries
    reference nodes are not). -/
def isUriNode : Node → Bool
  | .uri _ => true
  | _ => false

/-- Branch characterization: a pump-mapped sensor whose code carries no
    `pmp<digits>_` token, on a building with at least one pump unit, takes the
    fan-out branch of `_create_individual_sensor`. -/
theorem create_individual_sensor_generic (supply : Nat → String) (g : List Triple)
    (k : Nat) (tag name : String) (info : SensorInfo) (uris : EquipmentUris)
    (he : info.equipment.getD "hot_water_system" = "pump")
    (hf : findPmpNum name.data = none)
    (hp : 0 < uris.pump_uris.length) :
    create_individual_sensor supply g k tag name info uris =
      some (generic_pump_triples supply k tag name info uris.pump_uris ++
          sameAsChain (generic_pump_uris tag name uris.pump_uris),
        k + uris.pump_uris.length, uris) := by
  unfold create_individual_sensor
  simp only [he, hf, String.reduceBEq, Bool.false_eq_true, if_false]
  rw [if_pos hp]
  simp only [Option.isSome, Bool.and_true, Bool.and_false, beq_self_eq_true,
    reduceIte, String.reduceBEq, Bool.false_eq_true, if_false]

/-- Filtering one fan-out block for rdf:type triples with a URIRef subject
    leaves exactly the sensor-instance typing triple. -/
theorem generic_pump_block_filter_type (b : String) (tag name : String)
    (info : SensorInfo) (pn : Nat) (pu : Node) :
    (generic_pump_block (.bnode b) tag name info pn pu).filter
        (fun tr => tr.2.1 == rdfType && isUriNode tr.1) =
      [(hhwsN s!"building{tag}.secondary_pump{pn}.{name}", rdfType,
        brickClassOf info.brick_class)] := by
  cases hiu : info.unit <;>
    simp [generic_pump_block, add_timeseries_reference, hiu, List.filter_cons, isUriNode,
      hhwsN, rdfType, rdfsLabel, refN, brickN, unitN, beq_iff_eq]

/-- Filtering one fan-out block for `hasPoint` triples leaves exactly the
    pump-attachment triple. -/
theorem generic_pump_block_filter_point (b : String) (tag name : String)
    (info : SensorInfo) (pn : Nat) (pu : Node) :
    (generic_pump_block (.bnode b) tag name info pn pu).filter
        (fun tr => tr.2.1 == brickN "hasPoint") =
      [(pu, brickN "hasPoint", hhwsN s!"building{tag}.secondary_pump{pn}.{name}")] := by
  cases hiu : info.unit <;>
    simp [generic_pump_block, add_timeseries_reference, hiu, List.filter_cons,
      hhwsN, rdfType, rdfsLabel, refN, brickN, unitN, beq_iff_eq]

/-- A fan-out block holds no `owl:sameAs` triple. -/
theorem generic_pump_block_filter_sameAs (b : String) (tag name : String)
    (info : SensorInfo) (pn : Nat) (pu : Node) :
    (generic_pump_block (.bnode b) tag name info pn pu).filter
        (fun tr => tr.2.1 == owlN "sameAs") = [] := by
  cases hiu : info.unit <;>
    simp [generic_pump_block, add_timeseries_reference, hiu, List.filter_cons,
      hhwsN, rdfType, rdfsLabel, refN, brickN, unitN, owlN, beq_iff_eq]

theorem generic_pump_enumFrom_filter_type (supply : Nat → String) (k : Nat)
    (tag name : String) (info : SensorInfo) :
    ∀ (ps : List (Nat × Node)) (n : Nat),
      ((ps.enumFrom n).flatMap (fun pj =>
          generic_pump_block (.bnode (supply (k + pj.1))) tag name info pj.2.1
            pj.2.2)).filter (fun tr => tr.2.1 == rdfType && isUriNode tr.1) =
        ps.map (fun p => (hhwsN s!"building{tag}.secondary_pump{p.1}.{name}", rdfType,
          brickClassOf info.brick_class)) := by
  intro ps
  induction ps with
  | nil => intro n; rfl
  | cons a t ih =>
    intro n
    rw [List.enumFrom, List.flatMap_cons, List.filter_append,
      generic_pump_block_filter_type, ih (n + 1), List.map_cons]
    rfl

theorem generic_pump_enumFrom_filter_point (supply : Nat → String) (k : Nat)
    (tag name : String) (info : SensorInfo) :
    ∀ (ps : List (Nat × Node)) (n : Nat),
      ((ps.enumFrom n).flatMap (fun pj =>
          generic_pump_block (.bnode (supply (k + pj.1))) tag name info pj.2.1
            pj.2.2)).filter (fun tr => tr.2.1 == brickN "hasPoint") =
        ps.map (fun p => (p.2, brickN "hasPoint",
          hhwsN s!"building{tag}.secondary_pump{p.1}.{name}")) := by
  intro ps
  induction ps with
  | nil => intro n; rfl
  | cons a t ih =>
    intro n
    rw [List.enumFrom, List.flatMap_cons, List.filter_append,
      generic_pump_block_filter_point, ih (n + 1), List.map_cons]
    rfl

theorem generic_pump_enumFrom_filter_sameAs (supply : Nat → String) (k : Nat)
    (tag name : String) (info : SensorInfo) :
    ∀ (ps : List (Nat × Node)) (n : Nat),
      ((ps.enumFrom n).flatMap (fun pj =>
          generic_pump_block (.bnode (supply (k + pj.1))) tag name info pj.2.1
            pj.2.2)).filter (fun tr => tr.2.1 == owlN "sameAs") = [] := by
  intro ps
  induction ps with
  | nil => intro n; rfl
  | cons a t ih =>
    intro n
    rw [List.enumFrom, List.flatMap_cons, List.filter_append,
      generic_pump_block_filter_sameAs, ih (n + 1)]
    rfl

/-- The `sameAs` filter keeps the whole chain. -/
theorem sameAsChain_filter_self (us : List Node) :
    (sameAsChain us).filter (fun tr => tr.2.1 == owlN "sameAs") = sameAsChain us := by
  apply List.filter_eq_self.mpr
  intro tr htr
  rw [sameAsChain_rel us tr htr]
  simp

/-- The chain holds no typing and no `hasPoint` triples. -/
theorem sameAsChain_filter_type (us : List Node) :
    (sameAsChain us).filter (fun tr => tr.2.1 == rdfType && isUriNode tr.1) = [] := by
  apply List.filter_eq_nil_iff.mpr
  intro tr htr
  rw [sameAsChain_rel us tr htr]
  simp [owlN, rdfType]

theorem sameAsChain_filter_point (us : List Node) :
    (sameAsChain us).filter (fun tr => tr.2.1 == brickN "hasPoint") = [] := by
  apply List.filter_eq_nil_iff.mpr
  intro tr htr
  rw [sameAsChain_rel us tr htr]
  simp [owlN, brickN]

/-- The three filters over a full fan-out result. -/
theorem generic_result_filter_type (supply : Nat → String) (k : Nat)
    (tag name : String) (info : SensorInfo) (ps : List (Nat × Node)) :
    ((generic_pump_triples supply k tag name info ps ++
        sameAsChain (generic_pump_uris tag name ps)).filter
      (fun tr => tr.2.1 == rdfType && isUriNode tr.1)) =
      ps.map (fun p => (hhwsN s!"building{tag}.secondary_pump{p.1}.{name}", rdfType,
        brickClassOf info.brick_class)) := by
  rw [List.filter_append, sameAsChain_filter_type, List.append_nil,
    generic_pump_triples, List.enum]
  exact generic_pump_enumFrom_filter_type supply k tag name info ps 0

theorem generic_result_filter_point (supply : Nat → String) (k : Nat)
    (tag name : String) (info : SensorInfo) (ps : List (Nat × Node)) :
    ((generic_pump_triples supply k tag name info ps ++
        sameAsChain (generic_pump_uris tag name ps)).filter
      (fun tr => tr.2.1 == brickN "hasPoint")) =
      ps.map (fun p => (p.2, brickN "hasPoint",
        hhwsN s!"building{tag}.secondary_pump{p.1}.{name}")) := by
  rw [List.filter_append, sameAsChain_filter_point, List.append_nil,
    generic_pump_triples, List.enum]
  exact generic_pump_enumFrom_filter_point supply k tag name info ps 0

theorem generic_result_filter_sameAs (supply : Nat → String) (k : Nat)
    (tag name : String) (info : SensorInfo) (ps : List (Nat × Node)) :
    ((generic_pump_triples supply k tag name info ps ++
        sameAsChain (generic_pump_uris tag name ps)).filter
      (fun tr => tr.2.1 == owlN "sameAs")) =
      sameAsChain (generic_pump_uris tag name ps) := by
  rw [List.filter_append, sameAsChain_filter_self, generic_pump_triples, List.enum,
    generic_pump_enumFrom_filter_sameAs, List.nil_append]

/-- Distinct pump unit numbers yield distinct sensor-instance URIs. -/
theorem pump_sensor_uri_inj (tag name : String) {i j : Nat}
    (h : hhwsN s!"building{tag}.secondary_pump{i}.{name}" =
      hhwsN s!"building{tag}.secondary_pump{j}.{name}") : i = j := by
  apply natToString_inj
  simp only [hhwsN, Node.uri.injEq] at h
  have h2 := congrArg String.data h
  simp only [String.data_append, List.append_assoc] at h2
  apply String.ext
  have h3 := List.append_cancel_left h2
  have h4 := List.append_cancel_left h3
  have h5 := List.append_cancel_left h4
  have h6 := List.append_cancel_left h5
  rw [← List.append_assoc, ← List.append_assoc, ← List.append_assoc,
    ← List.append_assoc] at h6
  exact List.append_cancel_right
    (List.append_cancel_right (List.append_cancel_right h6))

/-- C5: for a building with exactly two inferred pump units and the generic
    pump code `pmp_spd` present (mapped to equipment kind "pump"), the builder
    creates exactly two SensorPoint instances for that code, attaches each to
    a distinct pump via `brick:hasPoint`, and links the two instances by
    `owl:sameAs`. -/
theorem C5_theorem (supply : Nat → String) (g : List Triple) (k : Nat)
    (tag : String) (info : SensorInfo) (uris : EquipmentUris) (p1 p2 : Node)
    (ts : List Triple) (k' : Nat) (uris' : EquipmentUris)
    (he : info.equipment.getD "hot_water_system" = "pump")
    (hpu : uris.pump_uris = [(1, p1), (2, p2)])
    (hne : p1 ≠ p2)
    (h : create_individual_sensor supply g k tag "pmp_spd" info uris =
      some (ts, k', uris')) :
    ∃ u1 u2, u1 ≠ u2 ∧
      generic_pump_uris tag "pmp_spd" uris.pump_uris = [u1, u2] ∧
      ts.filter (fun tr => tr.2.1 == rdfType && isUriNode tr.1) =
        [(u1, rdfType, brickClassOf info.brick_class),
         (u2, rdfType, brickClassOf info.brick_class)] ∧
      ts.filter (fun tr => tr.2.1 == brickN "hasPoint") =
        [(p1, brickN "hasPoint", u1), (p2, brickN "hasPoint", u2)] ∧
      ts.filter (fun tr => tr.2.1 == owlN "sameAs") = [(u1, owlN "sameAs", u2)] := by
  rw [create_individual_sensor_generic supply g k tag "pmp_spd" info uris he
    (by decide) (by rw [hpu]; simp)] at h
  simp only [Option.some.injEq, Prod.mk.injEq] at h
  obtain ⟨hts, hk, hu⟩ := h
  subst hts
  rw [hpu]
  refine ⟨_, _, ?_, rfl, ?_, ?_, ?_⟩
  · intro hcontra
    have h12 := pump_sensor_uri_inj tag "pmp_spd" hcontra
    simp at h12
  · rw [generic_result_filter_type]; rfl
  · rw [generic_result_filter_point]; rfl
  · rw [generic_result_filter_sameAs]; rfl

/-- C5 witness: a concrete two-pump building with `pmp_spd`. -/
theorem C5_witness :
    ∃ ts k' uris', create_individual_sensor (fun j => toString j) [] 0 "1" "pmp_spd"
        { equipment := some "pump", brick_class := "brick:Speed_Sensor",
          description := "Pump speed", unit := none }
        { hot_water_system := hhwsN "building1.hws",
          primary_loop := some (hhwsN "building1.hws.primary_loop"),
          secondary_loop := some (hhwsN "building1.hws.secondary_loop"),
          boiler_uris := [],
          pump_uris := [(1, hhwsN "building1.secondary_pump1"),
                        (2, hhwsN "building1.secondary_pump2")],
          weather_station := none } = some (ts, k', uris') ∧
      ∃ u1 u2, u1 ≠ u2 ∧
        generic_pump_uris "1" "pmp_spd" [(1, hhwsN "building1.secondary_pump1"),
          (2, hhwsN "building1.secondary_pump2")] = [u1, u2] ∧
        ts.filter (fun tr => tr.2.1 == rdfType && isUriNode tr.1) =
          [(u1, rdfType, brickClassOf "brick:Speed_Sensor"),
           (u2, rdfType, brickClassOf "brick:Speed_Sensor")] ∧
        ts.filter (fun tr => tr.2.1 == brickN "hasPoint") =
          [(hhwsN "building1.secondary_pump1", brickN "hasPoint", u1),
           (hhwsN "building1.secondary_pump2", brickN "hasPoint", u2)] ∧
        ts.filter (fun tr => tr.2.1 == owlN "sameAs") = [(u1, owlN "sameAs", u2)] :=
  ⟨_, _, _, rfl,
    C5_theorem (fun j => toString j) [] 0 "1"
      { equipment := some "pump", brick_class := "brick:Speed_Sensor",
        description := "Pump speed", unit := none }
      { hot_water_system := hhwsN "building1.hws",
        primary_loop := some (hhwsN "building1.hws.primary_loop"),
        secondary_loop := some (hhwsN "building1.hws.secondary_loop"),
        boiler_uris := [],
        pump_uris := [(1, hhwsN "building1.secondary_pump1"),
                      (2, hhwsN "building1.secondary_pump2")],
        weather_station := none }
      (hhwsN "building1.secondary_pump1") (hhwsN "building1.secondary_pump2")
      _ _ _ rfl rfl (by decide) rfl⟩

theorem generic_pump_uris_eq_map (tag name : String) (ps : List (Nat × Node)) :
    generic_pump_uris tag name ps =
      (ps.map Prod.fst).map (fun i => hhwsN s!"building{tag}.secondary_pump{i}.{name}") := by
  rw [List.map_map]
  rfl

theorem generic_pump_uris_nodup (tag name : String) (ps : List (Nat × Node)) (n : Nat)
    (hkeys : ps.map Prod.fst = List.range' 1 n) :
    (generic_pump_uris tag name ps).Nodup := by
  rw [generic_pump_uris_eq_map, hkeys]
  exact List.Nodup.map (fun i j hij => pump_sensor_uri_inj tag name hij)
    (List.nodup_range' _ _)

theorem sameAsChain_mem_iff (us : List Node) (a b : Node) :
    (a, owlN "sameAs", b) ∈ sameAsChain us ↔
      ∃ j, us[j]? = some a ∧ us[j+1]? = some b := by
  unfold sameAsChain
  rw [List.mem_map]
  constructor
  · rintro ⟨⟨x, y⟩, hmem, heq⟩
    simp only [Prod.mk.injEq] at heq
    obtain ⟨hx, -, hy⟩ := heq
    subst hx
    subst hy
    rw [List.mem_iff_getElem?] at hmem
    obtain ⟨j, hj⟩ := hmem
    rw [List.getElem?_zip_eq_some] at hj
    refine ⟨j, hj.1, ?_⟩
    rw [← List.getElem?_tail]
    exact hj.2
  · rintro ⟨j, ha, hb⟩
    refine ⟨(a, b), ?_, rfl⟩
    rw [List.mem_iff_getElem?]
    refine ⟨j, ?_⟩
    rw [List.getElem?_zip_eq_some]
    exact ⟨ha, by rw [List.getElem?_tail]; exact hb⟩

/-- C10: for a building with pump units numbered 1..n (n >= 2) and a generic
    pump code, the builder emits n typed SensorPoint instances and exactly
    n - 1 `owl:sameAs` links, which connect precisely the consecutive pairs
    of the instance list — a linear chain, not a clique. -/
theorem C10_theorem (supply : Nat → String) (g : List Triple) (k : Nat)
    (tag name : String) (info : SensorInfo) (uris : EquipmentUris)
    (ts : List Triple) (k' : Nat) (uris' : EquipmentUris) (n : Nat)
    (he : info.equipment.getD "hot_water_system" = "pump")
    (hf : findPmpNum name.data = none)
    (hkeys : uris.pump_uris.map Prod.fst = List.range' 1 n)
    (hn : 2 ≤ n)
    (h : create_individual_sensor supply g k tag name info uris = some (ts, k', uris')) :
    (ts.filter (fun tr => tr.2.1 == rdfType && isUriNode tr.1)).length = n ∧
    (ts.filter (fun tr => tr.2.1 == owlN "sameAs")).length = n - 1 ∧
    (∀ a b : Node, (a, owlN "sameAs", b) ∈ ts ↔
      ∃ j, (generic_pump_uris tag name uris.pump_uris)[j]? = some a ∧
        (generic_pump_uris tag name uris.pump_uris)[j+1]? = some b) ∧
    (∀ i j : Nat, ∀ a b : Node,
      (generic_pump_uris tag name uris.pump_uris)[i]? = some a →
      (generic_pump_uris tag name uris.pump_uris)[j]? = some b →
      j ≠ i + 1 → (a, owlN "sameAs", b) ∉ ts) := by
  have hps : uris.pump_uris.length = n := by
    have h1 := congrArg List.length hkeys
    simpa using h1
  have hp : 0 < uris.pump_uris.length := by omega
  rw [create_individual_sensor_generic supply g k tag name info uris he hf hp] at h
  simp only [Option.some.injEq, Prod.mk.injEq] at h
  obtain ⟨hts, hk, hu⟩ := h
  subst hts
  have hus : (generic_pump_uris tag name uris.pump_uris).length = n := by
    simp [generic_pump_uris, hps]
  have hnd := generic_pump_uris_nodup tag name uris.pump_uris n hkeys
  have hmem : ∀ a b : Node,
      ((a, owlN "sameAs", b) ∈
        generic_pump_triples supply k tag name info uris.pump_uris ++
          sameAsChain (generic_pump_uris tag name uris.pump_uris)) ↔
      (a, owlN "sameAs", b) ∈ sameAsChain (generic_pump_uris tag name uris.pump_uris) := by
    intro a b
    constructor
    · intro hin
      have h2 : (a, owlN "sameAs", b) ∈
          (generic_pump_triples supply k tag name info uris.pump_uris ++
            sameAsChain (generic_pump_uris tag name uris.pump_uris)).filter
            (fun tr => tr.2.1 == owlN "sameAs") := by
        rw [List.mem_filter]
        exact ⟨hin, rfl⟩
      rw [generic_result_filter_sameAs] at h2
      exact h2
    · intro hin
      exact List.mem_append_right _ hin
  refine ⟨?_, ?_, ?_, ?_⟩
  · rw [generic_result_filter_type, List.length_map, hps]
  · rw [generic_result_filter_sameAs]
    unfold sameAsChain
    rw [List.length_map, List.length_zip, List.length_tail, hus]
    omega
  · intro a b
    rw [hmem a b, sameAsChain_mem_iff]
  · intro i j a b ha hb hji hin
    rw [hmem a b, sameAsChain_mem_iff] at hin
    obtain ⟨m, hma, hmb⟩ := hin
    have hi : i < (generic_pump_uris tag name uris.pump_uris).length := by
      by_contra hge
      rw [List.getElem?_eq_none (by omega)] at ha
      exact Option.noConfusion ha
    have him : i = m := List.getElem?_inj hi hnd (ha.trans hma.symm)
    have hj : j < (generic_pump_uris tag name uris.pump_uris).length := by
      by_contra hge
      rw [List.getElem?_eq_none (by omega)] at hb
      exact Option.noConfusion hb
    have hjm : j = m + 1 := List.getElem?_inj hj hnd (hb.trans hmb.symm)
    omega

/-- C10 witness: a concrete three-pump building with `pmp_spd`. -/
theorem C10_witness :
    ∃ ts k' uris', create_individual_sensor (fun j => toString j) [] 0 "7" "pmp_spd"
        { equipment := some "pump", brick_class := "brick:Speed_Sensor",
          description := "Pump speed", unit := none }
        { hot_water_system := hhwsN "building7.hws",
          primary_loop := none, secondary_loop := none, boiler_uris := [],
          pump_uris := [(1, hhwsN "building7.secondary_pump1"),
                        (2, hhwsN "building7.secondary_pump2"),
                        (3, hhwsN "building7.secondary_pump3")],
          weather_station := none } = some (ts, k', uris') ∧
      (ts.filter (fun tr => tr.2.1 == rdfType && isUriNode tr.1)).length = 3 ∧
      (ts.filter (fun tr => tr.2.1 == owlN "sameAs")).length = 3 - 1 ∧
      (∀ a b : Node, (a, owlN "sameAs", b) ∈ ts ↔
        ∃ j, (generic_pump_uris "7" "pmp_spd"
            [(1, hhwsN "building7.secondary_pump1"),
             (2, hhwsN "building7.secondary_pump2"),
             (3, hhwsN "building7.secondary_pump3")])[j]? = some a ∧
          (generic_pump_uris "7" "pmp_spd"
            [(1, hhwsN "building7.secondary_pump1"),
             (2, hhwsN "building7.secondary_pump2"),
             (3, hhwsN "building7.secondary_pump3")])[j+1]? = some b) ∧
      (∀ i j : Nat, ∀ a b : Node,
        (generic_pump_uris "7" "pmp_spd"
          [(1, hhwsN "building7.secondary_pump1"),
           (2, hhwsN "building7.secondary_pump2"),
           (3, hhwsN "building7.secondary_pump3")])[i]? = some a →
        (generic_pump_uris "7" "pmp_spd"
          [(1, hhwsN "building7.secondary_pump1"),
           (2, hhwsN "building7.secondary_pump2"),
           (3, hhwsN "building7.secondary_pump3")])[j]? = some b →
        j ≠ i + 1 → (a, owlN "sameAs", b) ∉ ts) :=
  ⟨_, _, _, rfl,
    C10_theorem (fun j => toString j) [] 0 "7" "pmp_spd"
      { equipment := some "pump", brick_class := "brick:Speed_Sensor",
        description := "Pump speed", unit := none }
      { hot_water_system := hhwsN "building7.hws",
        primary_loop := none, secondary_loop := none, boiler_uris := [],
        pump_uris := [(1, hhwsN "building7.secondary_pump1"),
                      (2, hhwsN "building7.secondary_pump2"),
                      (3, hhwsN "building7.secondary_pump3")],
        weather_station := none }
      _ _ _ 3 rfl (by decide) rfl (by decide) rfl⟩

/-! ### Claim C4: district systems carry no boilers -/


/-- The three Boiler subclasses the converter ever instantiates
    (csv_to_brick.py lines 383-395: the `boiler_class` choice in
    `_create_boiler_system`). -/
def boilerClasses : List Node :=
  [brickN "Natural_Gas_Boiler", brickN "Condensing_Natural_Gas_Boiler",
   brickN "Noncondensing_Natural_Gas_Boiler"]

theorem mem_opt_triple {o : Option String} {f : String → Triple} {tr : Triple}
    (h : tr ∈ opt_triple o f) : ∃ v, tr = f v := by
  cases o with
  | none => simp [opt_triple] at h
  | some v =>
    simp [opt_triple] at h
    exact ⟨v, h⟩

theorem mem_opt_int_triple {o : Option Int} {f : Int → Triple} {tr : Triple}
    (h : tr ∈ opt_int_triple o f) : ∃ v, tr = f v := by
  cases o with
  | none => simp [opt_int_triple] at h
  | some v =>
    simp [opt_int_triple] at h
    exact ⟨v, h⟩

/-- Every `rdf:type` triple of the sensor-attachment tail types the sensor
    with the mapped brick class or types the blank node as a timeseries
    reference. -/
theorem attach_sensor_types (supply : Nat → String) (k : Nat) (tag name : String)
    (info : SensorInfo) (uris : EquipmentUris) (su target : Node) :
    ∀ tr ∈ (attach_sensor supply k tag name info uris su target).1,
      tr.2.1 = rdfType →
      tr.2.2 = brickClassOf info.brick_class ∨ tr.2.2 = refN "TimeseriesReference" := by
  by_cases hc : (target == uris.hot_water_system || some target == uris.primary_loop ||
      some target == uris.secondary_loop) = true
  all_goals
    cases hiu : info.unit <;>
    simp [attach_sensor, add_timeseries_reference, hiu, hc, List.forall_mem_append,
      List.forall_mem_cons, brickN, rdfType, rdfsLabel, refN, unitN]

/-- Same typing discipline for one generic-pump fan-out block. -/
theorem generic_pump_block_types (bn : Node) (tag name : String)
    (info : SensorInfo) (pn : Nat) (pu : Node) :
    ∀ tr ∈ generic_pump_block bn tag name info pn pu,
      tr.2.1 = rdfType →
      tr.2.2 = brickClassOf info.brick_class ∨ tr.2.2 = refN "TimeseriesReference" := by
  cases hiu : info.unit <;>
    simp [generic_pump_block, add_timeseries_reference, hiu, List.forall_mem_append,
      List.forall_mem_cons, brickN, rdfType, rdfsLabel, refN, unitN]

/-- Same typing discipline for the whole fan-out. -/
theorem generic_pump_triples_types (supply : Nat → String) (k : Nat)
    (tag name : String) (info : SensorInfo) (ps : List (Nat × Node)) :
    ∀ tr ∈ generic_pump_triples supply k tag name info ps,
      tr.2.1 = rdfType →
      tr.2.2 = brickClassOf info.brick_class ∨ tr.2.2 = refN "TimeseriesReference" := by
  intro tr htr
  simp only [generic_pump_triples, List.mem_flatMap] at htr
  obtain ⟨pj, hpj, htrb⟩ := htr
  exact generic_pump_block_types _ tag name info pj.2.1 pj.2.2 tr htrb

/-- The building-metadata triples type only the Building node. -/
theorem create_building_types (tag : String) (m : Metadata) :
    ∀ tr ∈ create_building tag m, tr.2.1 = rdfType → tr.2.2 = recN "Building" := by
  intro tr htr hty
  simp only [create_building, List.mem_append] at htr
  rcases htr with ((((((((((((h | h) | h) | h) | h) | h) | h) | h) | h) | h) | h) | h) | h)
  · simp only [List.mem_cons, List.not_mem_nil, or_false] at h
    rcases h with h | h <;> subst h
    · rfl
    · exact absurd hty (by simp [rdfsLabel, rdfType])
  all_goals
    first
    | (obtain ⟨v, hv⟩ := mem_opt_triple h
       subst hv
       exact absurd hty (by simp [hhwsN, rdfType]))
    | (obtain ⟨v, hv⟩ := mem_opt_int_triple h
       subst hv
       exact absurd hty (by simp [hhwsN, rdfType]))

/-- Every `rdf:type` triple added by `_create_individual_sensor` types either
    a sensor instance (with the mapped brick class), a timeseries-reference
    blank node, or the on-demand weather station. -/
theorem create_individual_sensor_types (supply : Nat → String) (g : List Triple)
    (k : Nat) (tag name : String) (info : SensorInfo) (uris : EquipmentUris)
    (ts : List Triple) (k' : Nat) (uris' : EquipmentUris)
    (h : create_individual_sensor supply g k tag name info uris = some (ts, k', uris')) :
    ∀ tr ∈ ts, tr.2.1 = rdfType →
      tr.2.2 = brickClassOf info.brick_class ∨ tr.2.2 = refN "TimeseriesReference" ∨
        tr.2.2 = brickN "Weather_Station" := by
  have himp : ∀ tr : Triple, tr.2.1 = rdfType →
      (tr.2.2 = brickClassOf info.brick_class ∨ tr.2.2 = refN "TimeseriesReference") →
      tr.2.2 = brickClassOf info.brick_class ∨ tr.2.2 = refN "TimeseriesReference" ∨
        tr.2.2 = brickN "Weather_Station" := by
    intro tr _ hd
    exact hd.imp id Or.inl
  unfold create_individual_sensor at h
  by_cases hb : info.equipment.getD "hot_water_system" = "boiler"
  · simp only [hb] at h
    cases hfb : findBoilerNum name.data with
    | some n =>
      simp only [hfb, Option.map, Option.isSome, Bool.and_true, beq_self_eq_true,
        reduceIte, String.reduceBEq, Bool.false_eq_true, if_false] at h
      cases hlk : lookupNum uris.boiler_uris n with
      | some target =>
        simp only [hlk, Option.some.injEq, Prod.mk.injEq] at h
        obtain ⟨hts, hk, hu⟩ := h
        subst hts
        exact fun tr htr hty =>
          himp tr hty (attach_sensor_types supply k tag name info uris _ target tr htr hty)
      | none =>
        simp only [hlk, Option.some.injEq, Prod.mk.injEq] at h
        obtain ⟨hts, hk, hu⟩ := h
        subst hts
        exact fun tr htr hty =>
          himp tr hty (attach_sensor_types supply k tag name info uris _ _ tr htr hty)
    | none =>
      simp only [hfb, Option.map, Option.isSome, Bool.and_false, beq_self_eq_true,
        reduceIte, String.reduceBEq, Bool.false_eq_true, if_false] at h
      cases hsl : uris.secondary_loop with
      | some target =>
        simp only [hsl, Option.some.injEq, Prod.mk.injEq] at h
        obtain ⟨hts, hk, hu⟩ := h
        subst hts
        exact fun tr htr hty =>
          himp tr hty (attach_sensor_types supply k tag name info uris _ target tr htr hty)
      | none =>
        simp only [hsl, Option.some.injEq, Prod.mk.injEq] at h
        obtain ⟨hts, hk, hu⟩ := h
        subst hts
        exact fun tr htr hty =>
          himp tr hty (attach_sensor_types supply k tag name info uris _ _ tr htr hty)
  · by_cases hp : info.equipment.getD "hot_water_system" = "pump"
    · simp only [hp, String.reduceBEq, Bool.false_eq_true, if_false] at h
      cases hfp : findPmpNum name.data with
      | some n =>
        simp only [hfp, Option.isSome, Bool.and_true, Bool.and_false, beq_self_eq_true,
          reduceIte, String.reduceBEq, Bool.false_eq_true, if_false] at h
        cases hlk : lookupNum uris.pump_uris n with
        | some target =>
          simp only [hlk, Option.some.injEq, Prod.mk.injEq] at h
          obtain ⟨hts, hk, hu⟩ := h
          subst hts
          exact fun tr htr hty =>
            himp tr hty (attach_sensor_types supply k tag name info uris _ target tr htr hty)
        | none =>
          simp only [hlk, Option.some.injEq, Prod.mk.injEq] at h
          obtain ⟨hts, hk, hu⟩ := h
          subst hts
          exact fun tr htr hty =>
            himp tr hty (attach_sensor_types supply k tag name info uris _ _ tr htr hty)
      | none =>
        simp only [hfp] at h
        by_cases hlen : uris.pump_uris.length > 0
        · simp only [hlen, if_pos, Option.isSome, Bool.and_true, beq_self_eq_true,
            reduceIte, String.reduceBEq, Bool.false_eq_true, if_false,
            Option.some.injEq, Prod.mk.injEq] at h
          obtain ⟨hts, hk, hu⟩ := h
          subst hts
          intro tr htr hty
          rcases List.mem_append.mp htr with htr | htr
          · exact himp tr hty
              (generic_pump_triples_types supply k tag name info uris.pump_uris tr htr hty)
          · have hrel := sameAsChain_rel _ tr htr
            rw [hrel] at hty
            exact absurd hty (by simp [owlN, rdfType])
        · simp only [hlen, if_neg, not_false_iff, Option.isSome, Bool.and_false,
            beq_self_eq_true, reduceIte, String.reduceBEq, Bool.false_eq_true,
            if_false] at h
          cases hsl : uris.secondary_loop with
          | some target =>
            simp only [hsl, Option.some.injEq, Prod.mk.injEq] at h
            obtain ⟨hts, hk, hu⟩ := h
            subst hts
            exact fun tr htr hty =>
              himp tr hty (attach_sensor_types supply k tag name info uris _ target tr htr hty)
          | none =>
            simp only [hsl] at h
            simp at h
    · by_cases hpl : info.equipment.getD "hot_water_system" = "primary_loop"
      · simp only [hpl, String.reduceBEq, Bool.false_eq_true, if_false,
          Bool.false_and, reduceIte] at h
        cases hplu : uris.primary_loop with
        | some target =>
          simp only [hplu, Option.some.injEq, Prod.mk.injEq] at h
          obtain ⟨hts, hk, hu⟩ := h
          subst hts
          exact fun tr htr hty =>
            himp tr hty (attach_sensor_types supply k tag name info uris _ target tr htr hty)
        | none =>
          simp only [hplu] at h
          simp at h
      · by_cases hsl2 : info.equipment.getD "hot_water_system" = "secondary_loop"
        · simp only [hsl2, String.reduceBEq, Bool.false_eq_true, if_false,
            Bool.false_and, reduceIte] at h
          cases hslu : uris.secondary_loop with
          | some target =>
            simp only [hslu, Option.some.injEq, Prod.mk.injEq] at h
            obtain ⟨hts, hk, hu⟩ := h
            subst hts
            exact fun tr htr hty =>
              himp tr hty (attach_sensor_types supply k tag name info uris _ target tr htr hty)
          | none =>
            simp only [hslu] at h
            simp at h
        · by_cases hws : info.equipment.getD "hot_water_system" = "weather_station"
          · simp only [hws, String.reduceBEq, Bool.false_eq_true, if_false,
              Bool.false_and, reduceIte] at h
            cases hwsu : uris.weather_station with
            | some target =>
              simp only [hwsu, Option.some.injEq, Prod.mk.injEq] at h
              obtain ⟨hts, hk, hu⟩ := h
              subst hts
              exact fun tr htr hty =>
                himp tr hty (attach_sensor_types supply k tag name info uris _ target tr htr hty)
            | none =>
              simp only [hwsu, Option.some.injEq, Prod.mk.injEq] at h
              obtain ⟨hts, hk, hu⟩ := h
              subst hts
              intro tr htr hty
              rcases List.mem_append.mp htr with htr | htr
              · by_cases hmem : (hhwsN s!"building{tag}.weather_station", rdfType,
                    brickN "Weather_Station") ∈ g
                · simp [hmem] at htr
                · simp only [hmem, if_neg, not_false_iff, List.mem_cons,
                    List.not_mem_nil, or_false] at htr
                  rcases htr with h1 | h1 | h1 <;> subst h1
                  · right; right; rfl
                  · exact absurd hty (by simp [rdfsLabel, rdfType])
                  · exact absurd hty (by simp [recN, rdfType])
              · exact himp tr hty
                  (attach_sensor_types supply k tag name info _ _ _ tr htr hty)
          · by_cases hhw : info.equipment.getD "hot_water_system" = "hot_water_system"
            · simp only [hhw, String.reduceBEq, Bool.false_eq_true, if_false,
                Bool.false_and, reduceIte, Option.some.injEq, Prod.mk.injEq] at h
              obtain ⟨hts, hk, hu⟩ := h
              subst hts
              exact fun tr htr hty =>
                himp tr hty (attach_sensor_types supply k tag name info uris _ _ tr htr hty)
            · simp only [beq_iff_eq, hb, hp, hpl, hsl2, hws, hhw, Option.isSome_none,
                Bool.and_false, Bool.false_and, Bool.false_eq_true, if_false,
                reduceIte] at h
              cases hslu : uris.secondary_loop with
              | some target =>
                simp only [hslu, Option.some.injEq, Prod.mk.injEq] at h
                obtain ⟨hts, hk, hu⟩ := h
                subst hts
                exact fun tr htr hty =>
                  himp tr hty (attach_sensor_types supply k tag name info uris _ target tr htr hty)
              | none =>
                simp only [hslu, Option.some.injEq, Prod.mk.injEq] at h
                obtain ⟨hts, hk, hu⟩ := h
                subst hts
                exact fun tr htr hty =>
                  himp tr hty (attach_sensor_types supply k tag name info uris _ _ tr htr hty)

/-- The sensor-creation loop preserves the no-boiler-type invariant when no
    mapped sensor carries a boiler class. -/
theorem sensor_fold_types (supply : Nat → String) (tag : String)
    (mappings : String → Option SensorInfo)
    (hmap : ∀ c i, mappings c = some i → brickClassOf i.brick_class ∉ boilerClasses) :
    ∀ (l : List (String × Option Int)) (st res : List Triple × Nat × EquipmentUris),
      l.foldlM (fun (acc : List Triple × Nat × EquipmentUris) cell =>
          if cell.2 == some (1 : Int) then
            match mappings cell.1 with
            | some info =>
              match create_individual_sensor supply acc.1 acc.2.1 tag cell.1
                  info acc.2.2 with
              | some (ts, k', u') => some (acc.1 ++ ts, k', u')
              | none => none
            | none => some acc
          else some acc) st = some res →
      (∀ tr ∈ st.1, tr.2.1 = rdfType → tr.2.2 ∉ boilerClasses) →
      ∀ tr ∈ res.1, tr.2.1 = rdfType → tr.2.2 ∉ boilerClasses := by
  intro l
  induction l with
  | nil =>
    intro st res h hst
    simp only [List.foldlM_nil] at h
    cases h
    exact hst
  | cons cell rest ih =>
    intro st res h hst
    rw [List.foldlM_cons] at h
    by_cases hc : (cell.2 == some (1 : Int)) = true
    · cases hm : mappings cell.1 with
      | some info =>
        cases hcis : create_individual_sensor supply st.1 st.2.1 tag cell.1 info st.2.2 with
        | some r =>
          obtain ⟨ts, k', u'⟩ := r
          simp only [hc, hm, hcis, if_true, Option.bind_eq_bind, Option.some_bind] at h
          refine ih _ res h ?_
          intro tr htr hty
          rcases List.mem_append.mp htr with htr | htr
          · exact hst tr htr hty
          · rcases create_individual_sensor_types supply st.1 st.2.1 tag cell.1 info
              st.2.2 ts k' u' hcis tr htr hty with h1 | h1 | h1
            · rw [h1]
              exact hmap cell.1 info hm
            · rw [h1]
              decide
            · rw [h1]
              decide
        | none =>
          simp only [hc, hm, hcis, if_true, Option.bind_eq_bind, Option.none_bind] at h
          exact absurd h (by simp)
      | none =>
        simp only [hc, hm, if_true, Option.bind_eq_bind, Option.some_bind] at h
        exact ih _ res h hst
    · rw [Bool.not_eq_true] at hc
      simp only [hc, Bool.false_eq_true, if_false, Option.bind_eq_bind,
        Option.some_bind] at h
      exact ih _ res h hst

/-- A district hot-water build adds no boiler-typed node: if the incoming
    graph has none and no mapped sensor class is a boiler class, the result
    graph has none either. -/
theorem create_district_hw_no_boiler (supply : Nat → String) (tag : String)
    (m : Metadata) (v : Row) (mappings : String → Option SensorInfo)
    (g : List Triple) (k : Nat) (w : List String)
    (g' : List Triple) (k' : Nat) (w' : List String)
    (hmap : ∀ c i, mappings c = some i → brickClassOf i.brick_class ∉ boilerClasses)
    (hg : ∀ tr ∈ g, tr.2.1 = rdfType → tr.2.2 ∉ boilerClasses)
    (h : create_district_hw_system supply tag m v mappings g k w = some (g', k', w')) :
    ∀ tr ∈ g', tr.2.1 = rdfType → tr.2.2 ∉ boilerClasses := by
  unfold create_district_hw_system at h
  rw [Option.map_eq_some'] at h
  obtain ⟨r, hr, hfr⟩ := h
  simp only [Prod.mk.injEq] at hfr
  obtain ⟨h1, -, -⟩ := hfr
  subst h1
  unfold create_sensor_points at hr
  refine sensor_fold_types supply tag mappings hmap (v.drop 3) _ r hr ?_
  intro tr htr hty
  rcases List.mem_append.mp htr with htr | htr
  · rcases List.mem_append.mp htr with htr | htr
    · rcases List.mem_append.mp htr with htr | htr
      · rcases List.mem_append.mp htr with htr | htr
        · exact hg tr htr hty
        · rw [create_building_types tag m tr htr hty]
          decide
      · simp only [List.mem_cons, List.not_mem_nil, or_false] at htr
        rcases htr with h1 | h1 | h1 <;> subst h1
        · exact (by decide : brickN "Hot_Water_System" ∉ boilerClasses)
        · exact absurd hty (by simp [rdfsLabel, rdfType])
        · exact absurd hty (by simp [recN, rdfType])
    · simp only [List.mem_cons, List.not_mem_nil, or_false] at htr
      rcases htr with h1 | h1 | h1 <;> subst h1
      · exact (by decide : brickN "Hot_Water_Loop" ∉ boilerClasses)
      · exact absurd hty (by simp [rdfsLabel, rdfType])
      · exact absurd hty (by simp [brickN, rdfType])
  · simp only [List.mem_flatMap] at htr
    obtain ⟨p, hp, htr3⟩ := htr
    simp only [List.mem_cons, List.not_mem_nil, or_false] at htr3
    rcases htr3 with h1 | h1 | h1 <;> subst h1
    · exact (by decide : brickN "Pump" ∉ boilerClasses)
    · exact absurd hty (by simp [rdfsLabel, rdfType])
    · exact absurd hty (by simp [brickN, rdfType])

/-- Same for a district steam build. -/
theorem create_district_steam_no_boiler (supply : Nat → String) (tag : String)
    (m : Metadata) (v : Row) (mappings : String → Option SensorInfo)
    (g : List Triple) (k : Nat) (w : List String)
    (g' : List Triple) (k' : Nat) (w' : List String)
    (hmap : ∀ c i, mappings c = some i → brickClassOf i.brick_class ∉ boilerClasses)
    (hg : ∀ tr ∈ g, tr.2.1 = rdfType → tr.2.2 ∉ boilerClasses)
    (h : create_district_steam_system supply tag m v mappings g k w = some (g', k', w')) :
    ∀ tr ∈ g', tr.2.1 = rdfType → tr.2.2 ∉ boilerClasses := by
  unfold create_district_steam_system at h
  rw [Option.map_eq_some'] at h
  obtain ⟨r, hr, hfr⟩ := h
  simp only [Prod.mk.injEq] at hfr
  obtain ⟨h1, -, -⟩ := hfr
  subst h1
  unfold create_sensor_points at hr
  refine sensor_fold_types supply tag mappings hmap (v.drop 3) _ r hr ?_
  intro tr htr hty
  rcases List.mem_append.mp htr with htr | htr
  · rcases List.mem_append.mp htr with htr | htr
    · rcases List.mem_append.mp htr with htr | htr
      · rcases List.mem_append.mp htr with htr | htr
        · exact hg tr htr hty
        · rw [create_building_types tag m tr htr hty]
          decide
      · simp only [List.mem_cons, List.not_mem_nil, or_false] at htr
        rcases htr with h1 | h1 | h1 <;> subst h1
        · exact (by decide : brickN "Hot_Water_System" ∉ boilerClasses)
        · exact absurd hty (by simp [rdfsLabel, rdfType])
        · exact absurd hty (by simp [recN, rdfType])
    · simp only [List.mem_cons, List.not_mem_nil, or_false] at htr
      rcases htr with h1 | h1 | h1 <;> subst h1
      · exact (by decide : brickN "Hot_Water_Loop" ∉ boilerClasses)
      · exact absurd hty (by simp [rdfsLabel, rdfType])
      · exact absurd hty (by simp [brickN, rdfType])
  · simp only [List.mem_flatMap] at htr
    obtain ⟨p, hp, htr3⟩ := htr
    simp only [List.mem_cons, List.not_mem_nil, or_false] at htr3
    rcases htr3 with h1 | h1 | h1 <;> subst h1
    · exact (by decide : brickN "Pump" ∉ boilerClasses)
    · exact absurd hty (by simp [rdfsLabel, rdfType])
    · exact absurd hty (by simp [brickN, rdfType])

/-- C4 counterexample: a system-type label that CONTAINS the district marker
    without being exactly it ("District HW Loop") with a declared boiler
    count of 5: the engine infers no boilers but also records NO warning —
    the disagreeing evidence is silently ignored, because the engine's
    district test is exact equality, not containment. -/
theorem C4_counterexample :
    strContains (strLower "District HW Loop") "district hw" = true ∧
    (analyze_equipment_count [] (some 5) "1" "District HW Loop").boilers = [] ∧
    (analyze_equipment_count [] (some 5) "1" "District HW Loop").warnings = [] := by
  decide

/-- C4 (amended): for a label containing the district marker the engine's
    boiler list is always empty, and a district build adds no boiler-typed
    node to the graph (given a boiler-free incoming graph and no
    boiler-classed sensor mapping); the disagreement warning, however, is
    recorded only when the label is EXACTLY the district label. -/
theorem C4_theorem (v : Row) (bNumber : Option Int) (tag systemType : String)
    (supply : Nat → String) (m : Metadata) (mappings : String → Option SensorInfo)
    (g g' : List Triple) (k k' : Nat) (w w' : List String)
    (hdist : strContains (strLower systemType) "district hw" = true ∨
      strContains (strLower systemType) "district steam" = true)
    (hmap : ∀ c i, mappings c = some i → brickClassOf i.brick_class ∉ boilerClasses)
    (hg : ∀ tr ∈ g, tr.2.1 = rdfType → tr.2.2 ∉ boilerClasses)
    (hbuild : create_district_hw_system supply tag m v mappings g k w = some (g', k', w') ∨
      create_district_steam_system supply tag m v mappings g k w = some (g', k', w')) :
    (analyze_equipment_count v bNumber tag systemType).boilers = [] ∧
    ((0 < max_boiler_from_sensors v ∨ ∃ n, bNumber = some n ∧ 0 < n) →
      is_district_system systemType = true →
      (analyze_equipment_count v bNumber tag systemType).warnings ≠ []) ∧
    (∀ tr ∈ g', tr.2.1 = rdfType → tr.2.2 ∉ boilerClasses) := by
  have hnb : is_boiler_system systemType = false := by
    cases hbs : is_boiler_system systemType
    · rfl
    · exfalso
      unfold is_boiler_system at hbs
      simp only [Bool.or_eq_true, beq_iff_eq] at hbs
      rcases hbs with (h1 | h1) | h1 <;> rw [h1] at hdist <;>
        rcases hdist with h2 | h2 <;> exact absurd h2 (by decide)
  refine ⟨?_, ?_, ?_⟩
  · unfold analyze_equipment_count
    simp only [hnb, Bool.false_eq_true, if_false]
    split_ifs <;> rfl
  · intro hev hd
    unfold analyze_equipment_count
    simp only [hnb, Bool.false_eq_true, if_false, hd, if_true]
    split_ifs with hcond
    · simp
    · exfalso
      rw [Bool.not_eq_true, Bool.or_eq_false_iff] at hcond
      obtain ⟨hc1, hc2⟩ := hcond
      rcases hev with h1 | ⟨n, hn, hpos⟩
      · rw [decide_eq_false_iff_not] at hc1
        exact hc1 h1
      · subst hn
        simp [hpos] at hc2
  · rcases hbuild with hb1 | hb1
    · exact create_district_hw_no_boiler supply tag m v mappings g k w g' k' w'
        hmap hg hb1
    · exact create_district_steam_no_boiler supply tag m v mappings g k w g' k' w'
        hmap hg hb1

/-- C4 witness: a concrete district hot-water building with a declared boiler
    count of 2. -/
theorem C4_witness :
    ∃ g' k' w', create_district_hw_system (fun j => toString j) "1"
        { b_number := some 2, area := none, bldg_type := none, bldg_type_hl := none,
          year := none, decade := none, climate := none, t_hdd := none,
          system := some "District HW", system_hl := none, design_supply := none,
          design_return := none, org := none, b_manufacturer := none, b_model := none,
          b_input := none, b_output := none, b_efficiency := none,
          b_min_turndown := none, b_min_flow := none, b_redundancy := none }
        [("tag", some 1)] (fun _ => none) [] 0 [] = some (g', k', w') ∧
      ((analyze_equipment_count [("tag", some 1)] (some 2) "1" "District HW").boilers = [] ∧
        ((0 < max_boiler_from_sensors [("tag", some 1)] ∨
            ∃ n, (some (2 : Int)) = some n ∧ 0 < n) →
          is_district_system "District HW" = true →
          (analyze_equipment_count [("tag", some 1)] (some 2) "1" "District HW").warnings ≠ []) ∧
        (∀ tr ∈ g', tr.2.1 = rdfType → tr.2.2 ∉ boilerClasses)) :=
  ⟨_, _, _, rfl,
    C4_theorem [("tag", some 1)] (some 2) "1" "District HW" (fun j => toString j)
      { b_number := some 2, area := none, bldg_type := none, bldg_type_hl := none,
        year := none, decade := none, climate := none, t_hdd := none,
        system := some "District HW", system_hl := none, design_supply := none,
        design_return := none, org := none, b_manufacturer := none, b_model := none,
        b_input := none, b_output := none, b_efficiency := none,
        b_min_turndown := none, b_min_flow := none, b_redundancy := none }
      (fun _ => none) [] _ 0 _ [] _ (Or.inl (by decide))
      (fun c i h => Option.noConfusion h)
      (fun tr htr => absurd htr (List.not_mem_nil tr))
      (Or.inl rfl)⟩

/-! ### Claim C7: determinism of the graph builder across runs -/


/-- Erase a blank node's identifier (the only run-dependent part of a node). -/
def scrubNode : Node → Node
  | .bnode _ => .bnode ""
  | n => n

/-- Erase blank-node identifiers in a triple. -/
def scrubT (t : Triple) : Triple := (scrubNode t.1, scrubNode t.2.1, scrubNode t.2.2)

/-- Erase blank-node identifiers in a graph. -/
def scrubG (g : List Triple) : List Triple := g.map scrubT

theorem scrubNode_eq_uri {n : Node} {a : String} (h : scrubNode n = .uri a) :
    n = .uri a := by
  cases n <;> simp [scrubNode] at h ⊢ <;> exact h

/-- Membership of an all-URI triple transfers between graphs that agree after
    scrubbing. -/
theorem scrub_mem_of (a b c : String) :
    ∀ {ga gb : List Triple}, scrubG ga = scrubG gb →
      ((Node.uri a, Node.uri b, Node.uri c) : Triple) ∈ ga →
      ((Node.uri a, Node.uri b, Node.uri c) : Triple) ∈ gb := by
  intro ga gb h hmem
  have h1 : scrubT (Node.uri a, Node.uri b, Node.uri c) ∈ scrubG gb := by
    rw [← h]
    exact List.mem_map_of_mem _ hmem
  simp only [scrubG, List.mem_map] at h1
  obtain ⟨t2, ht2, hsc⟩ := h1
  simp only [scrubT, scrubNode, Prod.mk.injEq] at hsc
  obtain ⟨h2, h3, h4⟩ := hsc
  have e1 := scrubNode_eq_uri h2
  have e2 := scrubNode_eq_uri h3
  have e3 := scrubNode_eq_uri h4
  have : t2 = (Node.uri a, Node.uri b, Node.uri c) := by
    obtain ⟨x, y, z⟩ := t2
    simp only [Prod.mk.injEq]
    exact ⟨e1, e2, e3⟩
  rw [← this]
  exact ht2

theorem scrub_mem_iff {ga gb : List Triple} (h : scrubG ga = scrubG gb)
    (a b c : String) :
    ((Node.uri a, Node.uri b, Node.uri c) : Triple) ∈ ga ↔
      ((Node.uri a, Node.uri b, Node.uri c) : Triple) ∈ gb :=
  ⟨scrub_mem_of a b c h, scrub_mem_of a b c h.symm⟩

theorem scrubG_append (a b : List Triple) : scrubG (a ++ b) = scrubG a ++ scrubG b :=
  List.map_append scrubT a b

/-- The sensor-attachment tail is supply-independent after scrubbing. -/
theorem attach_sensor_scrub (s1 s2 : Nat → String) (k : Nat) (tag name : String)
    (info : SensorInfo) (uris : EquipmentUris) (su t : Node) :
    scrubG (attach_sensor s1 k tag name info uris su t).1 =
      scrubG (attach_sensor s2 k tag name info uris su t).1 := by
  cases hiu : info.unit <;>
    simp [attach_sensor, add_timeseries_reference, hiu, scrubG, scrubT, scrubNode]

/-- One generic-pump block is blank-node-name-independent after scrubbing. -/
theorem generic_pump_block_scrub (b1 b2 : String) (tag name : String)
    (info : SensorInfo) (pn : Nat) (pu : Node) :
    scrubG (generic_pump_block (.bnode b1) tag name info pn pu) =
      scrubG (generic_pump_block (.bnode b2) tag name info pn pu) := by
  cases hiu : info.unit <;>
    simp [generic_pump_block, add_timeseries_reference, hiu, scrubG, scrubT, scrubNode]

theorem generic_pump_enumFrom_scrub (s1 s2 : Nat → String) (k : Nat)
    (tag name : String) (info : SensorInfo) :
    ∀ (ps : List (Nat × Node)) (n : Nat),
    scrubG ((ps.enumFrom n).flatMap (fun pj =>
        generic_pump_block (.bnode (s1 (k + pj.1))) tag name info pj.2.1 pj.2.2)) =
      scrubG ((ps.enumFrom n).flatMap (fun pj =>
        generic_pump_block (.bnode (s2 (k + pj.1))) tag name info pj.2.1 pj.2.2)) := by
  intro ps
  induction ps with
  | nil => intro n; rfl
  | cons p rest ih =>
    intro n
    rw [List.enumFrom]
    simp only [List.flatMap_cons, scrubG, List.map_append]
    rw [← scrubG, ← scrubG, ← scrubG, ← scrubG,
      generic_pump_block_scrub (s1 (k + n)) (s2 (k + n)), ih (n + 1)]

/-- The whole fan-out is supply-independent after scrubbing. -/
theorem generic_pump_triples_scrub (s1 s2 : Nat → String) (k : Nat)
    (tag name : String) (info : SensorInfo) (ps : List (Nat × Node)) :
    scrubG (generic_pump_triples s1 k tag name info ps) =
      scrubG (generic_pump_triples s2 k tag name info ps) := by
  unfold generic_pump_triples
  rw [List.enum]
  exact generic_pump_enumFrom_scrub s1 s2 k tag name info ps 0

/-- `_create_individual_sensor` is a pure function of its input up to the
    blank-node identifiers drawn from the supply: two runs over
    scrub-equal graphs give scrub-equal triples and identical counters and
    equipment URIs. -/
theorem create_individual_sensor_scrub (s1 s2 : Nat → String) (g1 g2 : List Triple)
    (k : Nat) (tag name : String) (info : SensorInfo) (uris : EquipmentUris)
    (hg : scrubG g1 = scrubG g2) :
    Option.map (fun r : List Triple × Nat × EquipmentUris => (scrubG r.1, r.2))
        (create_individual_sensor s1 g1 k tag name info uris) =
      Option.map (fun r : List Triple × Nat × EquipmentUris => (scrubG r.1, r.2))
        (create_individual_sensor s2 g2 k tag name info uris) := by
  unfold create_individual_sensor
  by_cases hb : info.equipment.getD "hot_water_system" = "boiler"
  · simp only [hb]
    cases hfb : findBoilerNum name.data with
    | some n =>
      simp only [hfb, Option.map, Option.isSome, Bool.and_true, beq_self_eq_true,
        reduceIte, String.reduceBEq, Bool.false_eq_true, if_false]
      cases hlk : lookupNum uris.boiler_uris n with
      | some target =>
        simp only [hlk, Option.some.injEq, Prod.mk.injEq]
        exact ⟨attach_sensor_scrub s1 s2 k tag name info uris _ target, by simp [attach_sensor]⟩
      | none =>
        simp only [hlk, Option.some.injEq, Prod.mk.injEq]
        exact ⟨attach_sensor_scrub s1 s2 k tag name info uris _ _, by simp [attach_sensor]⟩
    | none =>
      simp only [hfb, Option.map, Option.isSome, Bool.and_false, beq_self_eq_true,
        reduceIte, String.reduceBEq, Bool.false_eq_true, if_false]
      cases hsl : uris.secondary_loop with
      | some target =>
        simp only [hsl, Option.map, Option.some.injEq, Prod.mk.injEq]
        exact ⟨attach_sensor_scrub s1 s2 k tag name info uris _ target, by simp [attach_sensor]⟩
      | none =>
        simp only [hsl, Option.map, Option.some.injEq, Prod.mk.injEq]
        exact ⟨attach_sensor_scrub s1 s2 k tag name info uris _ _, by simp [attach_sensor]⟩
  · by_cases hp : info.equipment.getD "hot_water_system" = "pump"
    · simp only [hp, String.reduceBEq, Bool.false_eq_true, if_false]
      cases hfp : findPmpNum name.data with
      | some n =>
        simp only [hfp, Option.isSome, Bool.and_true, Bool.and_false, beq_self_eq_true,
          reduceIte, String.reduceBEq, Bool.false_eq_true, if_false]
        cases hlk : lookupNum uris.pump_uris n with
        | some target =>
          simp only [hlk, Option.map, Option.some.injEq, Prod.mk.injEq]
          exact ⟨attach_sensor_scrub s1 s2 k tag name info uris _ target, by simp [attach_sensor]⟩
        | none =>
          simp only [hlk, Option.map, Option.some.injEq, Prod.mk.injEq]
          exact ⟨attach_sensor_scrub s1 s2 k tag name info uris _ _, by simp [attach_sensor]⟩
      | none =>
        simp only [hfp]
        by_cases hlen : uris.pump_uris.length > 0
        · simp only [hlen, if_pos, Option.isSome, Bool.and_true, beq_self_eq_true,
            reduceIte, String.reduceBEq, Bool.false_eq_true, if_false,
            Option.map, Option.some.injEq, Prod.mk.injEq]
          refine ⟨?_, by simp [attach_sensor]⟩
          rw [scrubG_append, scrubG_append, generic_pump_triples_scrub s1 s2]
        · simp only [hlen, if_neg, not_false_iff, Option.isSome, Bool.and_false,
            beq_self_eq_true, reduceIte, String.reduceBEq, Bool.false_eq_true,
            if_false]
          cases hsl : uris.secondary_loop with
          | some target =>
            simp only [hsl, Option.map, Option.some.injEq, Prod.mk.injEq]
            exact ⟨attach_sensor_scrub s1 s2 k tag name info uris _ target, by simp [attach_sensor]⟩
          | none =>
            simp only [hsl, Option.map]
    · by_cases hpl : info.equipment.getD "hot_water_system" = "primary_loop"
      · simp only [hpl, String.reduceBEq, Bool.false_eq_true, if_false,
          Bool.false_and, reduceIte]
        cases hplu : uris.primary_loop with
        | some target =>
          simp only [hplu, Option.map, Option.some.injEq, Prod.mk.injEq]
          exact ⟨attach_sensor_scrub s1 s2 k tag name info uris _ target, by simp [attach_sensor]⟩
        | none =>
          simp only [hplu, Option.map]
      · by_cases hsl2 : info.equipment.getD "hot_water_system" = "secondary_loop"
        · simp only [hsl2, String.reduceBEq, Bool.false_eq_true, if_false,
            Bool.false_and, reduceIte]
          cases hslu : uris.secondary_loop with
          | some target =>
            simp only [hslu, Option.map, Option.some.injEq, Prod.mk.injEq]
            exact ⟨attach_sensor_scrub s1 s2 k tag name info uris _ target, by simp [attach_sensor]⟩
          | none =>
            simp only [hslu, Option.map]
        · by_cases hws : info.equipment.getD "hot_water_system" = "weather_station"
          · simp only [hws, String.reduceBEq, Bool.false_eq_true, if_false,
              Bool.false_and, reduceIte]
            cases hwsu : uris.weather_station with
            | some target =>
              simp only [hwsu, Option.map, Option.some.injEq, Prod.mk.injEq]
              exact ⟨attach_sensor_scrub s1 s2 k tag name info uris _ target, by simp [attach_sensor]⟩
            | none =>
              simp only [hwsu, Option.map, Option.some.injEq, Prod.mk.injEq]
              by_cases hmem : (hhwsN s!"building{tag}.weather_station", rdfType,
                  brickN "Weather_Station") ∈ g1
              · have hmem2 : (hhwsN s!"building{tag}.weather_station", rdfType,
                    brickN "Weather_Station") ∈ g2 := scrub_mem_of _ _ _ hg hmem
                simp only [hmem, hmem2, if_pos, List.nil_append]
                exact ⟨attach_sensor_scrub s1 s2 k tag name info _ _ _, by simp [attach_sensor]⟩
              · have hmem2 : ¬(hhwsN s!"building{tag}.weather_station", rdfType,
                    brickN "Weather_Station") ∈ g2 :=
                  fun hc => hmem (scrub_mem_of _ _ _ hg.symm hc)
                simp only [hmem, hmem2, if_neg, not_false_iff]
                refine ⟨?_, by simp [attach_sensor]⟩
                rw [scrubG_append, scrubG_append, attach_sensor_scrub s1 s2]
          · by_cases hhw : info.equipment.getD "hot_water_system" = "hot_water_system"
            · simp only [hhw, String.reduceBEq, Bool.false_eq_true, if_false,
                Bool.false_and, reduceIte, Option.map, Option.some.injEq, Prod.mk.injEq]
              exact ⟨attach_sensor_scrub s1 s2 k tag name info uris _ _, by simp [attach_sensor]⟩
            · simp only [beq_iff_eq, hb, hp, hpl, hsl2, hws, hhw, Option.isSome_none,
                Bool.and_false, Bool.false_and, Bool.false_eq_true, if_false,
                reduceIte]
              cases hslu : uris.secondary_loop with
              | some target =>
                simp only [hslu, Option.map, Option.some.injEq, Prod.mk.injEq]
                exact ⟨attach_sensor_scrub s1 s2 k tag name info uris _ target, by simp [attach_sensor]⟩
              | none =>
                simp only [hslu, Option.map, Option.some.injEq, Prod.mk.injEq]
                exact ⟨attach_sensor_scrub s1 s2 k tag name info uris _ _, by simp [attach_sensor]⟩

theorem sensor_fold_scrub (s1 s2 : Nat → String) (tag : String)
    (mappings : String → Option SensorInfo) :
    ∀ (l : List (String × Option Int)) (st1 st2 : List Triple × Nat × EquipmentUris),
      scrubG st1.1 = scrubG st2.1 → st1.2 = st2.2 →
      Option.map (fun r : List Triple × Nat × EquipmentUris => (scrubG r.1, r.2))
          (l.foldlM (fun (acc : List Triple × Nat × EquipmentUris) cell =>
            if cell.2 == some (1 : Int) then
              match mappings cell.1 with
              | some info =>
                match create_individual_sensor s1 acc.1 acc.2.1 tag cell.1
                    info acc.2.2 with
                | some (ts, k', u') => some (acc.1 ++ ts, k', u')
                | none => none
              | none => some acc
            else some acc) st1) =
        Option.map (fun r : List Triple × Nat × EquipmentUris => (scrubG r.1, r.2))
          (l.foldlM (fun (acc : List Triple × Nat × EquipmentUris) cell =>
            if cell.2 == some (1 : Int) then
              match mappings cell.1 with
              | some info =>
                match create_individual_sensor s2 acc.1 acc.2.1 tag cell.1
                    info acc.2.2 with
                | some (ts, k', u') => some (acc.1 ++ ts, k', u')
                | none => none
              | none => some acc
            else some acc) st2) := by
  intro l
  induction l with
  | nil =>
    intro st1 st2 hg hst
    simp only [List.foldlM_nil, Option.map, Option.some.injEq, Prod.mk.injEq]
    exact ⟨hg, hst⟩
  | cons cell rest ih =>
    intro st1 st2
    obtain ⟨ga, ka, ua⟩ := st1
    obtain ⟨gb, kb, ub⟩ := st2
    intro hg hst
    simp only [Prod.mk.injEq] at hst
    obtain ⟨hk, hu⟩ := hst
    subst hk
    subst hu
    rw [List.foldlM_cons, List.foldlM_cons]
    by_cases hc : (cell.2 == some (1 : Int)) = true
    · cases hm : mappings cell.1 with
      | some info =>
        have hrel := create_individual_sensor_scrub s1 s2 ga gb ka tag cell.1 info ua hg
        cases hc1 : create_individual_sensor s1 ga ka tag cell.1 info ua with
        | some r1 =>
          cases hc2 : create_individual_sensor s2 gb ka tag cell.1 info ua with
          | some r2 =>
            obtain ⟨ts1, k1, u1⟩ := r1
            obtain ⟨ts2, k2, u2⟩ := r2
            rw [hc1, hc2] at hrel
            simp only [Option.map, Option.some.injEq, Prod.mk.injEq] at hrel
            obtain ⟨hts, hk2, hu2⟩ := hrel
            subst hk2
            subst hu2
            simp only [hc, hm, hc1, hc2, if_true, Option.bind_eq_bind, Option.some_bind]
            exact ih (ga ++ ts1, k1, u1) (gb ++ ts2, k1, u1)
              (by rw [scrubG_append, scrubG_append, hg, hts]) rfl
          | none =>
            rw [hc1, hc2] at hrel
            simp at hrel
        | none =>
          cases hc2 : create_individual_sensor s2 gb ka tag cell.1 info ua with
          | some r2 =>
            rw [hc1, hc2] at hrel
            simp at hrel
          | none =>
            simp only [hc, hm, hc1, hc2, if_true, Option.bind_eq_bind, Option.none_bind]
      | none =>
        simp only [hc, hm, if_true, Option.bind_eq_bind, Option.some_bind]
        exact ih (ga, ka, ua) (gb, ka, ua) hg rfl
    · rw [Bool.not_eq_true] at hc
      simp only [hc, Bool.false_eq_true, if_false, Option.bind_eq_bind, Option.some_bind]
      exact ih (ga, ka, ua) (gb, ka, ua) hg rfl

theorem create_sensor_points_scrub (s1 s2 : Nat → String) (tag : String) (v : Row)
    (mappings : String → Option SensorInfo)
    (st1 st2 : List Triple × Nat × EquipmentUris)
    (hg : scrubG st1.1 = scrubG st2.1) (hst : st1.2 = st2.2) :
    Option.map (fun r : List Triple × Nat × EquipmentUris => (scrubG r.1, r.2))
        (create_sensor_points s1 tag v mappings st1) =
      Option.map (fun r : List Triple × Nat × EquipmentUris => (scrubG r.1, r.2))
        (create_sensor_points s2 tag v mappings st2) := by
  unfold create_sensor_points
  exact sensor_fold_scrub s1 s2 tag mappings (v.drop 3) st1 st2 hg hst

theorem csp_map_scrub (s1 s2 : Nat → String) (tag : String) (v : Row)
    (mappings : String → Option SensorInfo) (w ws : List String)
    (st1 st2 : List Triple × Nat × EquipmentUris)
    (hg : scrubG st1.1 = scrubG st2.1) (hst : st1.2 = st2.2) :
    Option.map (fun r : List Triple × Nat × List String => (scrubG r.1, r.2))
        ((create_sensor_points s1 tag v mappings st1).map
          (fun r => (r.1, r.2.1, w ++ ws))) =
      Option.map (fun r : List Triple × Nat × List String => (scrubG r.1, r.2))
        ((create_sensor_points s2 tag v mappings st2).map
          (fun r => (r.1, r.2.1, w ++ ws))) := by
  have hrel := create_sensor_points_scrub s1 s2 tag v mappings st1 st2 hg hst
  cases hc1 : create_sensor_points s1 tag v mappings st1 with
  | none =>
    cases hc2 : create_sensor_points s2 tag v mappings st2 with
    | none => rfl
    | some r2 =>
      rw [hc1, hc2] at hrel
      simp at hrel
  | some r1 =>
    cases hc2 : create_sensor_points s2 tag v mappings st2 with
    | none =>
      rw [hc1, hc2] at hrel
      simp at hrel
    | some r2 =>
      obtain ⟨ts1, k1, u1⟩ := r1
      obtain ⟨ts2, k2, u2⟩ := r2
      rw [hc1, hc2] at hrel
      simp only [Option.map, Option.some.injEq, Prod.mk.injEq] at hrel ⊢
      obtain ⟨hts, hk, hu⟩ := hrel
      subst hk
      exact ⟨hts, rfl, trivial⟩

theorem create_boiler_system_scrub (s1 s2 : Nat → String) (tag : String)
    (m : Metadata) (v : Row) (mappings : String → Option SensorInfo)
    (systemType : String) (g1 g2 : List Triple) (k : Nat) (w : List String)
    (hg : scrubG g1 = scrubG g2) :
    Option.map (fun r : List Triple × Nat × List String => (scrubG r.1, r.2))
        (create_boiler_system s1 tag m v mappings systemType g1 k w) =
      Option.map (fun r : List Triple × Nat × List String => (scrubG r.1, r.2))
        (create_boiler_system s2 tag m v mappings systemType g2 k w) := by
  unfold create_boiler_system
  refine csp_map_scrub s1 s2 tag v mappings w _ _ _ ?_ rfl
  simp only [scrubG_append, hg]

theorem create_district_hw_system_scrub (s1 s2 : Nat → String) (tag : String)
    (m : Metadata) (v : Row) (mappings : String → Option SensorInfo)
    (g1 g2 : List Triple) (k : Nat) (w : List String)
    (hg : scrubG g1 = scrubG g2) :
    Option.map (fun r : List Triple × Nat × List String => (scrubG r.1, r.2))
        (create_district_hw_system s1 tag m v mappings g1 k w) =
      Option.map (fun r : List Triple × Nat × List String => (scrubG r.1, r.2))
        (create_district_hw_system s2 tag m v mappings g2 k w) := by
  unfold create_district_hw_system
  refine csp_map_scrub s1 s2 tag v mappings w _ _ _ ?_ rfl
  simp only [scrubG_append, hg]

theorem create_district_steam_system_scrub (s1 s2 : Nat → String) (tag : String)
    (m : Metadata) (v : Row) (mappings : String → Option SensorInfo)
    (g1 g2 : List Triple) (k : Nat) (w : List String)
    (hg : scrubG g1 = scrubG g2) :
    Option.map (fun r : List Triple × Nat × List String => (scrubG r.1, r.2))
        (create_district_steam_system s1 tag m v mappings g1 k w) =
      Option.map (fun r : List Triple × Nat × List String => (scrubG r.1, r.2))
        (create_district_steam_system s2 tag m v mappings g2 k w) := by
  unfold create_district_steam_system
  refine csp_map_scrub s1 s2 tag v mappings w _ _ _ ?_ rfl
  simp only [scrubG_append, hg]

theorem bind_scrub (x1 x2 : Option (List Triple × Nat × List String))
    (k1 k2 : List Triple × Nat × List String → Option (List Triple × Nat × List String))
    (hx : Option.map (fun r : List Triple × Nat × List String => (scrubG r.1, r.2)) x1 =
      Option.map (fun r : List Triple × Nat × List String => (scrubG r.1, r.2)) x2)
    (hk : ∀ a b : List Triple × Nat × List String, scrubG a.1 = scrubG b.1 → a.2 = b.2 →
      Option.map (fun r : List Triple × Nat × List String => (scrubG r.1, r.2)) (k1 a) =
        Option.map (fun r : List Triple × Nat × List String => (scrubG r.1, r.2)) (k2 b)) :
    Option.map (fun r : List Triple × Nat × List String => (scrubG r.1, r.2)) (x1 >>= k1) =
      Option.map (fun r : List Triple × Nat × List String => (scrubG r.1, r.2)) (x2 >>= k2) := by
  cases x1 with
  | none =>
    cases x2 with
    | none => rfl
    | some b => simp at hx
  | some a =>
    cases x2 with
    | none => simp at hx
    | some b =>
      simp only [Option.map, Option.some.injEq, Prod.mk.injEq] at hx
      obtain ⟨h1, h2⟩ := hx
      simp only [Option.bind_eq_bind, Option.some_bind]
      exact hk a b h1 h2

theorem convert_fold_scrub (s1 s2 : Nat → String) (vdf : List Row)
    (systemType : String) (mappings : String → Option SensorInfo) :
    ∀ (l : List MetaRow) (st1 st2 : List Triple × Nat × List String),
      scrubG st1.1 = scrubG st2.1 → st1.2 = st2.2 →
      Option.map (fun r : List Triple × Nat × List String => (scrubG r.1, r.2))
          (l.foldlM (fun (st : List Triple × Nat × List String) (r : MetaRow) =>
            if systemType == "" ||
                matches_system_type (strTrim (r.meta.system.getD "")) systemType then
              match vdf.find? (fun vr => rowGet vr "tag" == some r.tag) with
              | some buildingVars =>
                if strLower systemType == "boiler" || strLower systemType == "condensing" ||
                    strLower systemType == "non-condensing" then
                  create_boiler_system s1 (toString r.tag) r.meta buildingVars mappings
                    (strLower (strTrim (r.meta.system.getD ""))) st.1 st.2.1 st.2.2
                else if strLower systemType == "district hw" then
                  create_district_hw_system s1 (toString r.tag) r.meta buildingVars mappings
                    st.1 st.2.1 st.2.2
                else if strLower systemType == "district steam" then
                  create_district_steam_system s1 (toString r.tag) r.meta buildingVars mappings
                    st.1 st.2.1 st.2.2
                else some st
              | none => some st
            else some st) st1) =
        Option.map (fun r : List Triple × Nat × List String => (scrubG r.1, r.2))
          (l.foldlM (fun (st : List Triple × Nat × List String) (r : MetaRow) =>
            if systemType == "" ||
                matches_system_type (strTrim (r.meta.system.getD "")) systemType then
              match vdf.find? (fun vr => rowGet vr "tag" == some r.tag) with
              | some buildingVars =>
                if strLower systemType == "boiler" || strLower systemType == "condensing" ||
                    strLower systemType == "non-condensing" then
                  create_boiler_system s2 (toString r.tag) r.meta buildingVars mappings
                    (strLower (strTrim (r.meta.system.getD ""))) st.1 st.2.1 st.2.2
                else if strLower systemType == "district hw" then
                  create_district_hw_system s2 (toString r.tag) r.meta buildingVars mappings
                    st.1 st.2.1 st.2.2
                else if strLower systemType == "district steam" then
                  create_district_steam_system s2 (toString r.tag) r.meta buildingVars mappings
                    st.1 st.2.1 st.2.2
                else some st
              | none => some st
            else some st) st2) := by
  intro l
  induction l with
  | nil =>
    intro st1 st2 hg hst
    simp only [List.foldlM_nil, Option.map, Option.some.injEq, Prod.mk.injEq]
    exact ⟨hg, hst⟩
  | cons r rest ih =>
    intro st1 st2
    obtain ⟨ga, ka, wa⟩ := st1
    obtain ⟨gb, kb, wb⟩ := st2
    intro hg hst
    simp only [Prod.mk.injEq] at hst
    obtain ⟨hk, hw⟩ := hst
    subst hk
    subst hw
    rw [List.foldlM_cons, List.foldlM_cons]
    refine bind_scrub _ _ _ _ ?_ (fun a b hgab hab => ih a b hgab hab)
    by_cases hcond : (systemType == "" ||
        matches_system_type (strTrim (r.meta.system.getD "")) systemType) = true
    · cases hfind : vdf.find? (fun vr => rowGet vr "tag" == some r.tag) with
      | some bv =>
        by_cases hboil : (strLower systemType == "boiler" ||
            strLower systemType == "condensing" ||
            strLower systemType == "non-condensing") = true
        · simp only [hcond, if_true, hfind, hboil]
          exact create_boiler_system_scrub s1 s2 (toString r.tag) r.meta bv mappings
            (strLower (strTrim (r.meta.system.getD ""))) ga gb ka wa hg
        · rw [Bool.not_eq_true] at hboil
          by_cases hdhw : (strLower systemType == "district hw") = true
          · simp only [hcond, if_true, hfind, hboil, Bool.false_eq_true, if_false, hdhw]
            exact create_district_hw_system_scrub s1 s2 (toString r.tag) r.meta bv
              mappings ga gb ka wa hg
          · rw [Bool.not_eq_true] at hdhw
            by_cases hds : (strLower systemType == "district steam") = true
            · simp only [hcond, if_true, hfind, hboil, hdhw, Bool.false_eq_true,
                if_false, hds]
              exact create_district_steam_system_scrub s1 s2 (toString r.tag) r.meta bv
                mappings ga gb ka wa hg
            · rw [Bool.not_eq_true] at hds
              simp only [hcond, if_true, hfind, hboil, hdhw, hds, Bool.false_eq_true,
                if_false, Option.map, Option.some.injEq, Prod.mk.injEq]
              exact ⟨hg, by simp⟩
      | none =>
        simp only [hcond, if_true, hfind, Option.map, Option.some.injEq, Prod.mk.injEq]
        exact ⟨hg, by simp⟩
    · rw [Bool.not_eq_true] at hcond
      simp only [hcond, Bool.false_eq_true, if_false, Option.map, Option.some.injEq,
        Prod.mk.injEq]
      exact ⟨hg, by simp⟩

set_option maxHeartbeats 2000000 in
/-- C7 (amended): the converter is deterministic up to the blank-node
    identifiers drawn for timeseries references — two runs on identical
    input differing only in the blank-node supply yield the same graph
    modulo scrubbing of blank-node names, the same error outcome, and the
    same list of written files. -/
theorem C7_theorem (s1 s2 : Nat → String) (md : List MetaRow) (vars : List Row)
    (sta : Option String) (bt : Option String) (mappings : String → Option SensorInfo)
    (out : String) (g0 : List Triple) (w0 : List String) :
    Except.map scrubG (convert_to_brick s1 md vars sta bt mappings out g0 w0).1 =
      Except.map scrubG (convert_to_brick s2 md vars sta bt mappings out g0 w0).1 ∧
    (convert_to_brick s1 md vars sta bt mappings out g0 w0).2 =
      (convert_to_brick s2 md vars sta bt mappings out g0 w0).2 := by
  have hrel := convert_fold_scrub s1 s2
    (match bt with
     | some b => vars.filter (fun r =>
         match rowGet r "tag" with
         | some t => toString t == b
         | none => false)
     | none => vars)
    (match sta with
     | some st => st
     | none =>
       match (match bt with
         | some b => md.filter (fun r : MetaRow => toString r.tag == b)
         | none => md) with
       | [r] => strTrim (r.meta.system.getD "")
       | _ => "")
    mappings
    (match bt with
     | some b => md.filter (fun r : MetaRow => toString r.tag == b)
     | none => md)
    (g0 ++ custom_brick_classes, 0, w0) (g0 ++ custom_brick_classes, 0, w0) rfl rfl
  unfold convert_to_brick
  by_cases hempty : (match bt with
    | some b => md.filter (fun r : MetaRow => toString r.tag == b)
    | none => md).isEmpty = true
  · simp only [hempty, if_true]
    exact ⟨trivial, trivial⟩
  · rw [Bool.not_eq_true] at hempty
    simp only [hempty, Bool.false_eq_true, if_false]
    constructor
    · split
      · next heq =>
          have h2 := Option.map_eq_none'.mp (heq ▸ hrel).symm
          simp only [h2]
      · next g1' k1' ws1 heq =>
          have h2 := Option.map_eq_some'.mp (heq ▸ hrel).symm
          obtain ⟨⟨ts2, k2, ws2⟩, hf2, hFr⟩ := h2
          simp only [Prod.mk.injEq] at hFr
          obtain ⟨hts, hk2, hws2⟩ := hFr
          subst hk2
          subst hws2
          simp only [hf2]
          split_ifs <;> simp [Except.map, hts]
    · split
      · next heq =>
          have h2 := Option.map_eq_none'.mp (heq ▸ hrel).symm
          simp only [h2]
      · next g1' k1' ws1 heq =>
          have h2 := Option.map_eq_some'.mp (heq ▸ hrel).symm
          obtain ⟨⟨ts2, k2, ws2⟩, hf2, hFr⟩ := h2
          simp only [Prod.mk.injEq] at hFr
          obtain ⟨hts, hk2, hws2⟩ := hFr
          subst hk2
          subst hws2
          simp only [hf2]
          split_ifs <;> rfl

/-- C7 counterexample: two runs of the converter on identical input that
    differ only in the identifiers the blank-node generator returns (the
    model of rdflib's random `BNode()`) produce different graphs — the
    node/edge set is not run-independent, only its blank-node-scrubbed
    image is. -/
theorem C7_counterexample :
    (convert_to_brick (fun _ => "a")
        [{ tag := 1,
           meta :=
            { b_number := some 1, area := none, bldg_type := none,
              bldg_type_hl := none, year := none, decade := none, climate := none,
              t_hdd := none, system := some "Boiler", system_hl := none,
              design_supply := none, design_return := none, org := none,
              b_manufacturer := none, b_model := none, b_input := none,
              b_output := none, b_efficiency := none, b_min_turndown := none,
              b_min_flow := none, b_redundancy := none } }]
        [[("tag", some 1), ("org", none), ("datetime", none), ("enab", some 1)]]
        none none
        (fun c => if c == "enab" then
          some { equipment := some "hot_water_system", brick_class := "brick:Point",
                 description := "d", unit := none }
          else none)
        "out.ttl" [] []).1.toOption ≠
      (convert_to_brick (fun _ => "b")
        [{ tag := 1,
           meta :=
            { b_number := some 1, area := none, bldg_type := none,
              bldg_type_hl := none, year := none, decade := none, climate := none,
              t_hdd := none, system := some "Boiler", system_hl := none,
              design_supply := none, design_return := none, org := none,
              b_manufacturer := none, b_model := none, b_input := none,
              b_output := none, b_efficiency := none, b_min_turndown := none,
              b_min_flow := none, b_redundancy := none } }]
        [[("tag", some 1), ("org", none), ("datetime", none), ("enab", some 1)]]
        none none
        (fun c => if c == "enab" then
          some { equipment := some "hot_water_system", brick_class := "brick:Point",
                 description := "d", unit := none }
          else none)
        "out.ttl" [] []).1.toOption := by
  decide

/-! ### Claims C8 and C9: fatal empty-filter error and clear_graph framing -/

/-- C8: when filtering the metadata table by the requested building tag leaves
    no rows, `convert_to_brick` raises the input error immediately and writes
    no file at all — neither a serialized graph nor a warnings sidecar. -/
theorem C8_theorem (supply : Nat → String) (metadataRows : List MetaRow)
    (varsRows : List Row) (systemTypeArg : Option String) (bt : String)
    (mappings : String → Option SensorInfo) (outputPath : String)
    (g0 : List Triple) (w0 : List String)
    (h : (metadataRows.filter (fun r => toString r.tag == bt)).isEmpty = true) :
    convert_to_brick supply metadataRows varsRows systemTypeArg (some bt) mappings
        outputPath g0 w0 =
      (.error s!"No data found for building tag: {bt}", []) := by
  unfold convert_to_brick
  simp [h, showTagOpt]

/-- C8 witness: a concrete run whose metadata table has no row tagged 5. -/
theorem C8_witness :
    convert_to_brick (fun k => toString k)
        [{ tag := 3,
           meta := { b_number := none, area := none, bldg_type := none,
                     bldg_type_hl := none, year := none, decade := none,
                     climate := none, t_hdd := none, system := some "Boiler",
                     system_hl := none, design_supply := none, design_return := none,
                     org := none, b_manufacturer := none, b_model := none,
                     b_input := none, b_output := none, b_efficiency := none,
                     b_min_turndown := none, b_min_flow := none,
                     b_redundancy := none } }]
        [] none (some "5") (fun _ => none) "out.ttl" [] [] =
      (.error "No data found for building tag: 5", []) :=
  C8_theorem (fun k => toString k) _ [] none "5" (fun _ => none) "out.ttl" [] []
    (by decide)

/-- C9 counterexample: `rec` and `xsd` are bound at construction but are not
    re-bound by `clear_graph`, so the claim that every construction-time
    prefix survives a clear fails at the prefixes `rec` and `xsd`. -/
theorem C9_counterexample :
    initConverter.bindings "rec" = some (nsUrl "rec") ∧
    initConverter.bindings "xsd" = some (nsUrl "xsd") ∧
    (clear_graph initConverter).bindings "rec" = none ∧
    (clear_graph initConverter).bindings "xsd" = none := by
  refine ⟨by decide, by decide, by decide, by decide⟩

/-- C9 amended: after `clear_graph` the graph holds zero triples and the
    warning list is cleared; the prefixes `brick`, `hhws`, `unit`, `owl`,
    `ref`, `rdf` and `rdfs` remain bound to the namespaces bound at
    construction, while `rec` and `xsd` are not re-bound by the clear
    operation itself. -/
theorem C9_theorem (st : ConverterState) :
    (clear_graph st).graph = [] ∧
    (clear_graph st).validation_warnings = [] ∧
    ((clear_graph st).bindings "brick" = initConverter.bindings "brick" ∧
     (clear_graph st).bindings "hhws" = initConverter.bindings "hhws" ∧
     (clear_graph st).bindings "unit" = initConverter.bindings "unit" ∧
     (clear_graph st).bindings "owl" = initConverter.bindings "owl" ∧
     (clear_graph st).bindings "ref" = initConverter.bindings "ref" ∧
     (clear_graph st).bindings "rdf" = initConverter.bindings "rdf" ∧
     (clear_graph st).bindings "rdfs" = initConverter.bindings "rdfs") ∧
    (clear_graph st).bindings "rec" = none ∧
    (clear_graph st).bindings "xsd" = none := by
  refine ⟨rfl, rfl, ⟨rfl, rfl, rfl, rfl, rfl, rfl, rfl⟩, rfl, rfl⟩

/-- C3 amended: the standalone ground-truth boiler count and the equipment
    inference engine's boiler count agree on the common case — a system-type
    label that is exactly boiler-class, a positive declared count, 0/1-valued
    (or missing) flags, and no numbered boiler flag above unit 4 — but they
    are not equal on every input (see the counterexample: with declared count
    0 and no evidence, ground truth floors at 1 while the engine returns 0;
    they also diverge on flags numbered 5..9 and on non-0/1 flag values). -/
theorem C3_theorem (v : Row) (n : Int) (tag st : String)
    (hb : is_boiler_system st = true) (hn : 1 ≤ n)
    (hbool : ∀ c, rowGet v c = none ∨ rowGet v c = some 0 ∨ rowGet v c = some 1)
    (hle : max_boiler_from_sensors v ≤ 4) :
    calculate_boiler_count v (some n) st =
      ((analyze_equipment_count v (some n) tag st).boilers).length := by
  have hb' := hb
  simp only [is_boiler_system, Bool.or_eq_true, beq_iff_eq] at hb'
  have hd : strContains (strLower st) "district" = false := by
    rcases hb' with (h | h) | h <;> rw [h] <;> decide
  have hbs : (strContains (strLower st) "boiler" ||
      strContains (strLower st) "condensing" ||
      strContains (strLower st) "non-condensing") = true := by
    rcases hb' with (h | h) | h <;> rw [h] <;> decide
  -- abbreviations for the three per-family scans over 1..4
  have e2 : maxSat (fun i => varsIsOne v s!"sup{i}" || varsIsOne v s!"ret{i}" ||
      varsIsOne v s!"fire{i}") (List.range' 5 5) 0 = 0 := by
    apply maxSat_high_eq_zero
    have h9 := hle
    rw [max_boiler_eq_maxSat, maxSat_range9_eq] at h9
    omega
  have e1 : max_boiler_from_sensors v =
      max (max (maxSat (fun i => varsIsOne v s!"sup{i}") (List.range' 1 4) 0)
          (maxSat (fun i => varsIsOne v s!"ret{i}") (List.range' 1 4) 0))
        (maxSat (fun i => varsIsOne v s!"fire{i}") (List.range' 1 4) 0) := by
    rw [max_boiler_eq_maxSat, maxSat_range9_eq, e2,
      maxSat_or (fun i => varsIsOne v s!"sup{i}" || varsIsOne v s!"ret{i}")
        (fun i => varsIsOne v s!"fire{i}"),
      maxSat_or (fun i => varsIsOne v s!"sup{i}") (fun i => varsIsOne v s!"ret{i}")]
    omega
  have esup : gt_sup_count v =
      maxSat (fun i => varsIsOne v s!"sup{i}") (List.range' 1 4) 0 := by
    rw [gt_sup_eq_maxSat]
    exact maxSat_congr _ _ _ _ (fun i _ => gtPos_eq_varsIsOne v _ hbool)
  have eret : gt_ret_count v =
      maxSat (fun i => varsIsOne v s!"ret{i}") (List.range' 1 4) 0 := by
    rw [gt_ret_eq_maxSat]
    exact maxSat_congr _ _ _ _ (fun i _ => gtPos_eq_varsIsOne v _ hbool)
  have efire : gt_fire_count v =
      maxSat (fun i => varsIsOne v s!"fire{i}") (List.range' 1 4) 0 := by
    rw [gt_fire_eq_maxSat]
    exact maxSat_congr _ _ _ _ (fun i _ => gtPos_eq_varsIsOne v _ hbool)
  -- the engine side: boilers = 1..max(n, sensor-inferred)
  have hrhs : ((analyze_equipment_count v (some n) tag st).boilers).length =
      max n.toNat (max_boiler_from_sensors v) := by
    unfold analyze_equipment_count
    simp only [hb, if_pos]
    rw [if_pos (by omega : (0:Int) < n)]
    simp [List.length_range']
  rw [hrhs]
  unfold calculate_boiler_count
  simp only [hd, Bool.false_eq_true, if_false]
  rw [esup, eret, efire]
  split_ifs with hif
  · simp only [Bool.and_eq_true, decide_eq_true_eq] at hif
    rw [e1]
    omega
  · rw [e1]
    omega

/-- C3 witness: a condensing building with declared count 2 and a `sup3` flag;
    both implementations compute 3. -/
theorem C3_witness :
    calculate_boiler_count [("sup3", some 1)] (some 2) "Condensing" =
      ((analyze_equipment_count [("sup3", some 1)] (some 2) "7" "Condensing").boilers).length :=
  C3_theorem [("sup3", some 1)] 2 "7" "Condensing" (by decide) (by decide)
    (by
      intro c
      cases hcb : ("sup3" == c) with
      | false => left; simp [rowGet, List.find?, hcb]
      | true => right; right; simp [rowGet, List.find?, hcb])
    (by decide)

end HHW
